import Mathlib

/-!
Verification of the rule-based dataset error-detection engine of the
GetCleanData backend (Iterate-Hackathon-Backend).  The development shallowly
embeds the pandas dataframes and the check functions of
`tests/detect_correct.py`, `tests/errors_counting_check.py`,
`scripts/detect_errors_1.py`, `scripts/detect_errors_6.py`,
`scripts/detect_errors_10.py` and `app/sampling.py`, and proves or refutes
the specification claims about them.

Modelling conventions:
* A dataframe is a column-name list, a parallel dtype list and a list of
  rows; the index is the default `RangeIndex`, so row labels coincide with
  positions (this is what `load_dataset` produces via `read_csv`).
* A cell is NaN (`Cell.null`), a string, a number (pandas float64 modelled
  as `Rat`), or a parsed datetime (`Cell.date`, seconds since the epoch).
* `pd.to_numeric` with coercion and `str()` of a float are modelled for
  the shapes the claims exercise: numeric cells carry their value, plain
  decimal literals in strings parse, everything else coerces to NaN.
* A check that lets an exception escape to its caller is modelled by an
  `Option` outcome of `none`; `CheckResult.post` is the (object identity of
  the) input dataframe as it stands after the call, so purity claims state
  `post = df`.
-/

namespace GetCleanData

/-- A pandas dtype, as far as the checks consult it. -/
inductive DType where
  | object
  | numeric
  | datetime
deriving DecidableEq, Repr

/-- A single dataframe cell.  `null` is NaN/NaT, `date` a parsed Timestamp
(seconds since epoch). -/
inductive Cell where
  | null
  | str (s : String)
  | num (q : Rat)
  | date (t : Rat)
deriving DecidableEq, Repr

/-- A pandas dataframe with the default `RangeIndex`: row label = position. -/
structure DataFrame where
  cols : List String
  dtypes : List DType
  rows : List (List Cell)
deriving DecidableEq, Repr

namespace DataFrame

/-- Number of rows (`len(df)`). -/
def nRows (df : DataFrame) : Nat := df.rows.length

/-- `col in df.columns`. -/
def hasCol (df : DataFrame) (c : String) : Prop := c ∈ df.cols

instance (df : DataFrame) (c : String) : Decidable (df.hasCol c) := by
  unfold hasCol; infer_instance

/-- The row at position `i` (`df.iloc[i]` / `df.loc[i]` under a RangeIndex). -/
def rowAt (df : DataFrame) (i : Nat) : List Cell := df.rows.getD i []

/-- The cell of row `i` in column `c`; NaN when the column is absent. -/
def cell (df : DataFrame) (i : Nat) (c : String) : Cell :=
  match df.cols.findIdx? (fun x => decide (x = c)) with
  | some j => (df.rowAt i).getD j Cell.null
  | none => Cell.null

/-- The dtype recorded for column `c`. -/
def dtypeOf (df : DataFrame) (c : String) : Option DType :=
  match df.cols.findIdx? (fun x => decide (x = c)) with
  | some j => df.dtypes.get? j
  | none => none

/-- `df.copy()`: pandas builds an independent frame with the same contents;
under value semantics that is the frame itself. -/
def copy (df : DataFrame) : DataFrame := df

/-- Replace the contents of column `c` (`df[c] = vals`); used only on copies
by the checks below. -/
def setCol (df : DataFrame) (c : String) (vals : List Cell) : DataFrame :=
  match df.cols.findIdx? (fun x => decide (x = c)) with
  | some j =>
      let newRows := (List.range df.rows.length).map
        (fun i => (df.rowAt i).set j (vals.getD i Cell.null))
      { df with rows := newRows }
  | none => df

/-- `df.iloc[i].to_dict()`: the row as a column-name/value map. -/
def rowDict (df : DataFrame) (i : Nat) : List (String × Cell) :=
  df.cols.zip (df.rowAt i)

end DataFrame

/-!
String and rational primitives.  The Lean standard-library versions of
these operations (`String.trim`, `String.splitOn`, `Rat.add`, …) do not
reduce inside the kernel, so the development re-implements them by
structural recursion on character lists and via `mkRat`; bridge lemmas
relate the rational helpers to the ordinary field operations.
-/

/-- Whitespace tokens of a character list (Python `s.split()`):
maximal non-whitespace runs. -/
def pyWordsAux (cur : List Char) (acc : List (List Char)) : List Char → List (List Char)
  | [] => if cur.isEmpty then acc.reverse else (cur.reverse :: acc).reverse
  | c :: cs =>
      if c.isWhitespace then
        if cur.isEmpty then pyWordsAux [] acc cs
        else pyWordsAux [] (cur.reverse :: acc) cs
      else pyWordsAux (c :: cur) acc cs

/-- Python `" ".join(s.split())`: strip ends and collapse internal
whitespace runs (this also equals `re.sub(r"\s+", " ", s).strip()`). -/
def normWS (s : String) : String :=
  String.intercalate " " ((pyWordsAux [] [] s.data).map String.mk)

/-- Python `s.strip()`. -/
def pyStrip (s : String) : String :=
  String.mk (((s.data.dropWhile Char.isWhitespace).reverse.dropWhile
    Char.isWhitespace).reverse)

/-- Python `s.lower()` (ASCII, which is all the checks compare). -/
def pyLower (s : String) : String :=
  String.mk (s.data.map Char.toLower)

/-- Python `s.startswith(p)`. -/
def pyStartsWith (s p : String) : Bool :=
  p.data.isPrefixOf s.data

/-- Split a character list on a separator character, keeping empty pieces
(Python `s.split(sep)` for a one-character separator). -/
def splitCharAux (sep : Char) (cur : List Char) (acc : List (List Char)) :
    List Char → List (List Char)
  | [] => (cur.reverse :: acc).reverse
  | c :: cs =>
      if c = sep then splitCharAux sep [] (cur.reverse :: acc) cs
      else splitCharAux sep (c :: cur) acc cs

/-- Python `s.split(sep)` for a one-character separator. -/
def splitChar (sep : Char) (s : String) : List String :=
  (splitCharAux sep [] [] s.data).map String.mk

/-- Parse an all-digit string to a number (`int(s)` on digit strings,
`String.toNat?`). -/
def parseNatChars (l : List Char) : Option Nat :=
  if l.isEmpty ∨ ¬(l.all Char.isDigit) then none
  else some (l.foldl (fun a c => a * 10 + (c.toNat - '0'.toNat)) 0)

/-- Lexicographic comparison of character lists by code point, Python's
string order. -/
def charLE : List Char → List Char → Bool
  | [], _ => true
  | _ :: _, [] => false
  | a :: as, b :: bs => if a = b then charLE as bs else decide (a.toNat < b.toNat)

/-- Python `s <= t` on strings. -/
def pyStrLE (s t : String) : Bool := charLE s.data t.data

/-- Rational addition, written so the kernel can evaluate it. -/
def qadd (a b : Rat) : Rat :=
  mkRat (a.num * b.den + b.num * a.den) (a.den * b.den)

/-- Rational subtraction, written so the kernel can evaluate it. -/
def qsub (a b : Rat) : Rat :=
  mkRat (a.num * b.den - b.num * a.den) (a.den * b.den)

/-- Rational multiplication, written so the kernel can evaluate it. -/
def qmul (a b : Rat) : Rat :=
  mkRat (a.num * b.num) (a.den * b.den)

/-- Rational absolute value, written so the kernel can evaluate it. -/
def qabs (a : Rat) : Rat :=
  if a.num < 0 then Rat.neg a else a

theorem qadd_eq (a b : Rat) : qadd a b = a + b := (Rat.add_def' a b).symm

theorem qsub_eq (a b : Rat) : qsub a b = a - b := (Rat.sub_def' a b).symm

theorem qmul_eq (a b : Rat) : qmul a b = a * b := (Rat.mul_eq_mkRat a b).symm

theorem qabs_eq (a : Rat) : qabs a = |a| := by
  unfold qabs
  rcases lt_or_le a 0 with h | h
  · rw [if_pos (by simpa [← Rat.num_nonneg, not_le] using h), abs_of_neg h]
    rfl
  · rw [if_neg (by simpa [← Rat.num_nonneg, not_lt] using h), abs_of_nonneg h]

/-- Python `str(float)` rendering; only its membership in missing markers
and the `pharmax` shape are ever consulted, which no numeric rendering
matches. -/
def ratStr (q : Rat) : String :=
  if q.den = 1 then toString q.num else toString q.num ++ "/" ++ toString q.den

/-- Python `str(value)` on a cell (NaN prints as `nan`). -/
def pyStr : Cell → String
  | Cell.null => "nan"
  | Cell.str s => s
  | Cell.num q => ratStr q
  | Cell.date t => ratStr t

/-- The fragment of Python float-literal parsing that
`pd.to_numeric(errors="coerce")` needs here: optional sign, digits, one
optional decimal point. -/
def parseRat (s0 : String) : Option Rat :=
  let s := pyStrip s0
  let neg := pyStartsWith s "-"
  let body := if neg ∨ pyStartsWith s "+" then String.mk (s.data.drop 1) else s
  match (splitCharAux '.' [] [] body.data).map String.mk with
  | [ip] =>
      (parseNatChars ip.data).map (fun n =>
        mkRat (if neg then -(n : Int) else (n : Int)) 1)
  | [ip, fp] =>
      if ip.isEmpty ∧ fp.isEmpty then none
      else
        match (if ip.isEmpty then some 0 else parseNatChars ip.data),
              (if fp.isEmpty then some 0 else parseNatChars fp.data) with
        | some n, some f =>
            let den := 10 ^ fp.data.length
            let numer := (n * den + f : Nat)
            some (mkRat (if neg then -(numer : Int) else (numer : Int)) den)
        | _, _ => none
  | _ => none

/-- Python `str(list_of_ints)`, e.g. `[0, 2, 5]`. -/
def pyNatList (l : List Nat) : String :=
  "[" ++ String.intercalate ", " (l.map toString) ++ "]"

/-- Python `str(list_of_strings)`, e.g. `['a', 'b']`. -/
def pyStrList (l : List String) : String :=
  "[" ++ String.intercalate ", " (l.map (fun s => "'" ++ s ++ "'")) ++ "]"

namespace Dates

/-- Gregorian leap year. -/
def isLeap (y : Nat) : Bool :=
  y % 4 = 0 && (y % 100 ≠ 0 || y % 400 = 0)

/-- Days in a month (1-based). -/
def daysInMonth (leap : Bool) (m : Nat) : Nat :=
  match m with
  | 1 => 31 | 2 => if leap then 29 else 28 | 3 => 31 | 4 => 30
  | 5 => 31 | 6 => 30 | 7 => 31 | 8 => 31
  | 9 => 30 | 10 => 31 | 11 => 30 | 12 => 31
  | _ => 0

/-- Days in the months strictly before `m` of the same year. -/
def daysBeforeMonth (leap : Bool) (m : Nat) : Nat :=
  (List.range (m - 1)).foldl (fun acc k => acc + daysInMonth leap (k + 1)) 0

/-- Days in the proleptic Gregorian calendar before January 1 of year `y`. -/
def daysBeforeYear (y : Nat) : Nat :=
  365 * (y - 1) + (y - 1) / 4 + (y - 1) / 400 - (y - 1) / 100

/-- Seconds since 0001-01-01 00:00:00 of a validated civil datetime; only
differences of these values matter to the checks. -/
def civilSecs (y m d h mi s : Nat) : Rat :=
  mkRat (Int.ofNat ((daysBeforeYear y + daysBeforeMonth (isLeap y) m + (d - 1)) * 86400
      + h * 3600 + mi * 60 + s)) 1

/-- Parse and validate a `YYYY-MM-DD` date part. -/
def parseYMD (s : String) : Option (Nat × Nat × Nat) :=
  match (splitCharAux '-' [] [] s.data).mapM parseNatChars with
  | some [y, m, d] =>
      if 1 ≤ y ∧ 1 ≤ m ∧ m ≤ 12 ∧ 1 ≤ d ∧ d ≤ daysInMonth (isLeap y) m then
        some (y, m, d)
      else none
  | _ => none

/-- Parse and validate a `HH:MM:SS` time part. -/
def parseHMS (s : String) : Option (Nat × Nat × Nat) :=
  match (splitCharAux ':' [] [] s.data).mapM parseNatChars with
  | some [h, mi, sec] =>
      if h < 24 ∧ mi < 60 ∧ sec < 60 then some (h, mi, sec) else none
  | _ => none

/-- The fragment of `pd.to_datetime` string parsing the checks rely on:
`YYYY-MM-DD` with an optional `HH:MM:SS` time; anything else raises. -/
def parseDateString (s : String) : Option Rat :=
  match splitChar ' ' s with
  | [d] => (parseYMD d).map (fun ymd => civilSecs ymd.1 ymd.2.1 ymd.2.2 0 0 0)
  | [d, t] =>
      match parseYMD d, parseHMS t with
      | some ymd, some hms =>
          some (civilSecs ymd.1 ymd.2.1 ymd.2.2 hms.1 hms.2.1 hms.2.2)
      | _, _ => none
  | _ => none

end Dates

/-- A value stored under one column key inside a `lignes` entry. -/
inductive FieldVal where
  | none
  | cell (c : Cell)
  | strList (l : List String)
deriving DecidableEq, Repr

/-- The `default` member of a `lignes` entry: a per-column map or a whole
row dict. -/
inductive Payload where
  | fields (l : List (String × FieldVal))
  | row (r : List (String × Cell))
deriving DecidableEq, Repr

/-- The `correction` member: Python `None` (delete the row) or a per-column
map of replacements. -/
inductive Correction where
  | delete
  | fields (l : List (String × FieldVal))
deriving DecidableEq, Repr

/-- One `lignes` value.  In the JSON emitted by `detect_correct.py` this is
a dict with exactly the keys `default` and `correction`; the record has
exactly those two fields. -/
structure Ligne where
  default : Payload
  correction : Correction
deriving DecidableEq, Repr

/-- One issue object of `detect_correct.py`. -/
structure Issue where
  type_erreur : String
  texte_erreur : String
  lignes : List (String × Ligne)
deriving DecidableEq, Repr

/-- The observable result of calling one check: `post` is the input frame
as it stands after the call; `outcome` is `none` when an exception escapes
to the caller, otherwise the returned `(messages, issues)` pair. -/
structure CheckResult where
  post : DataFrame
  outcome : Option (List String × List Issue)
deriving DecidableEq, Repr

/-- Result of a check that returned normally. -/
def CheckResult.ok (df : DataFrame) (msgs : List String) (issues : List Issue) :
    CheckResult :=
  { post := df, outcome := some (msgs, issues) }

namespace DetectCorrect

/-- Missing markers test of `detect_correct.check_missing_values`:
`df["Product"].isna() | product_str.str.strip().isin(["", "NULL", "null", ""])`
where `product_str = df["Product"].astype(str)`. -/
def isMissingProduct (c : Cell) : Bool :=
  decide (c = Cell.null) ||
    decide (pyStrip (pyStr c) ∈ ["", "NULL", "null", ""])

/-- The missing-like test on the copied frame (line 42): only the string
test, applied to the already-stringified column. -/
def tmpMissingLike (s : String) : Bool := decide (pyStrip s ∈ ["", "NULL", "null"])

/-- Order-preserving `unique()` (first occurrence kept). -/
def uniqueFirst {α : Type} [DecidableEq α] (seen : List α) : List α → List α
  | [] => []
  | a :: l =>
      if a ∈ seen then uniqueFirst seen l
      else a :: uniqueFirst (a :: seen) l

/-- `x.value_counts().index[0]`: a most frequent element (ties by first
occurrence; pandas leaves the tie order to its sort). -/
def mostFrequent (l : List Cell) : Cell :=
  (uniqueFirst [] l).foldl
    (fun best v => if l.count v > l.count best then v else best)
    (l.headD Cell.null)

/-- The copied frame of `check_missing_values`:
`tmp_df = df.copy(); tmp_df["Product"] = astype(str); missing-like → NaN`. -/
def tmpDf (df : DataFrame) : DataFrame :=
  df.copy.setCol "Product"
    ((List.range df.nRows).map (fun i =>
      let s := pyStr (df.cell i "Product")
      if tmpMissingLike s then Cell.null else Cell.str s))

/-- `tmp_df[~isna].groupby("Barcode")["Product"].agg(most frequent)`:
the barcode → imputed-product map (barcodes with only missing-like products
or NaN barcodes get no entry; `groupby` drops NaN keys). -/
def barcodeToProduct (df : DataFrame) : List (Cell × Cell) :=
  let tmp := tmpDf df
  let keep := (List.range df.nRows).filter
    (fun i => decide (tmp.cell i "Product" ≠ Cell.null))
  let barcodes := uniqueFirst []
    ((keep.map (fun i => tmp.cell i "Barcode")).filter
      (fun b => decide (b ≠ Cell.null)))
  barcodes.map (fun b =>
    (b, mostFrequent ((keep.filter (fun i => decide (tmp.cell i "Barcode" = b))).map
          (fun i => tmp.cell i "Product"))))

/-- The imputation suggested for row `idx` (Python starts from
`suggested = None` and fills it from `barcode_to_product` when the row's
barcode is a key). -/
def suggestionFor (df : DataFrame) (idx : Nat) : FieldVal :=
  if "Barcode" ∈ df.cols then
    match (barcodeToProduct df).lookup (df.cell idx "Barcode") with
    | some p => FieldVal.cell p
    | none => FieldVal.none
  else FieldVal.none

/-- Row positions whose `Product` is missing-like. -/
def missingIndices (df : DataFrame) : List Nat :=
  (List.range df.nRows).filter (fun i => isMissingProduct (df.cell i "Product"))

/-- `detect_correct.check_missing_values` (detect error type #1, suggest
imputation from `Barcode`). -/
def check_missing_values (df : DataFrame) : CheckResult :=
  if "Product" ∉ df.cols then CheckResult.ok df [] []
  else
    let missing := missingIndices df
    if missing.length = 0 then CheckResult.ok df [] []
    else
      let msg :=
        "[Missing Product Names] ERROR: Column 'Product' has " ++
        toString missing.length ++
        " missing/blank values (including '', 'NULL', whitespace). Example rows: " ++
        pyNatList (missing.take 3) ++
        ". Imputation suggested from 'Barcode' where possible."
      let lignes := missing.map (fun idx =>
        (toString idx,
         ({ default := Payload.fields [("Product", FieldVal.none)],
            correction := Correction.fields [("Product", suggestionFor df idx)] } :
           Ligne)))
      CheckResult.ok df [msg]
        [{ type_erreur := "Missing Product Names",
           texte_erreur := msg,
           lignes := lignes }]

/-- `df.duplicated(keep=False)` membership at position `i`: some other row
is identical on all columns.  pandas special-cases `df.empty` (no rows or
no columns) to an all-clear answer. -/
def isDupKeepFalse (df : DataFrame) (i : Nat) : Bool :=
  !df.cols.isEmpty &&
    (List.range df.nRows).any
      (fun j => decide (j ≠ i) && decide (df.rowAt j = df.rowAt i))

/-- `df[df.duplicated(keep=False)].index.tolist()`. -/
def duplicateIndices (df : DataFrame) : List Nat :=
  (List.range df.nRows).filter (fun i => isDupKeepFalse df i)

/-- `detect_correct.check_duplicates`: mark every member of each group of
identical rows and suggest deletion (`correction = None`).  On a frame with
rows but no columns, `df.duplicated(keep=False)` returns an EMPTY boolean
Series (the `df.empty` shortcut) which `df[duplicated_mask]` cannot align
with the index, so an `IndexingError` escapes to the caller
(`outcome = none`), exactly as in `count_exact_duplicates`. -/
def check_duplicates (df : DataFrame) : CheckResult :=
  if df.cols.isEmpty ∧ df.nRows > 0 then { post := df, outcome := none }
  else
  let dups := duplicateIndices df
  if dups.length > 0 then
    let msg :=
      "[Exact Duplicate Rows] ERROR: There are " ++ toString dups.length ++
      " exact duplicate rows (all columns identical). Example rows: " ++
      pyNatList (dups.take 3) ++
      ". Suggested fix: keep the first occurrence, drop the others."
    let lignes := dups.map (fun idx =>
      (toString idx,
       ({ default := Payload.row (df.rowDict idx),
          correction := Correction.delete } : Ligne)))
    CheckResult.ok df [msg]
      [{ type_erreur := "Exact Duplicate Rows",
         texte_erreur :=
           "Exact duplicate rows detected. Keep first occurrence and drop subsequent duplicates.",
         lignes := lignes }]
  else CheckResult.ok df [] []

/-- The per-row body of `check_product_whitespace`: a string cell whose
whitespace-normalised form differs (NaN and non-string cells are skipped). -/
def whitespaceIssueAt (df : DataFrame) (i : Nat) : Bool :=
  match df.cell i "Product" with
  | Cell.str s => decide (s ≠ normWS s)
  | _ => false

/-- Row positions with a Product whitespace issue. -/
def whitespaceIndices (df : DataFrame) : List Nat :=
  (List.range df.nRows).filter (fun i => whitespaceIssueAt df i)

/-- `detect_correct.check_product_whitespace`: leading/trailing/multiple
internal spaces in `Product`; guarded on presence and `object` dtype. -/
def check_product_whitespace (df : DataFrame) : CheckResult :=
  if "Product" ∉ df.cols ∨ df.dtypeOf "Product" ≠ some DType.object then
    CheckResult.ok df [] []
  else
    let errs := whitespaceIndices df
    let lignes := errs.map (fun idx =>
      let original := match df.cell idx "Product" with
        | Cell.str s => s
        | _ => ""
      (toString idx,
       ({ default := Payload.fields [("Product", FieldVal.cell (Cell.str original))],
          correction :=
            Correction.fields [("Product", FieldVal.cell (Cell.str (normWS original)))] } :
         Ligne)))
    if errs.length > 0 then
      let msg :=
        "[Product Whitespace Errors] WARNING: Product contains whitespace errors in " ++
        toString errs.length ++ " rows. Example rows: " ++
        pyNatList (errs.take 5) ++ "."
      CheckResult.ok df [msg]
        [{ type_erreur := "Product Whitespace Errors",
           texte_erreur := "Product contains whitespace errors.",
           lignes := lignes }]
    else CheckResult.ok df [] []

/-- The per-row body of `check_supplier_variations`: non-NaN `OrderList`
value whose normalised form starts with `pharmax` (case-insensitive) but is
not exactly `Pharmax`. -/
def pharmaxVariationAt (df : DataFrame) (i : Nat) : Bool :=
  match df.cell i "OrderList" with
  | Cell.null => false
  | c =>
      let normalized := normWS (pyStr c)
      pyStartsWith (pyLower normalized) "pharmax" && decide (normalized ≠ "Pharmax")

/-- Row positions holding a Pharmax variant. -/
def pharmaxIndices (df : DataFrame) : List Nat :=
  (List.range df.nRows).filter (fun i => pharmaxVariationAt df i)

/-- `detect_correct.check_supplier_variations` (Pharmax drift). -/
def check_supplier_variations (df : DataFrame) : CheckResult :=
  if "OrderList" ∉ df.cols then CheckResult.ok df [] []
  else
    let vars := pharmaxIndices df
    if vars.length > 0 then
      let msg :=
        "[Supplier Name Variations (Pharmax drift)] WARNING: Detected " ++
        toString vars.length ++
        " 'Pharmax' supplier name variations (case/spacing/suffix/location). " ++
        "Suggested canonical name: 'Pharmax'."
      let lignes := vars.map (fun idx =>
        (toString idx,
         ({ default :=
              Payload.fields [("Supplier", FieldVal.cell (Cell.str (pyStr (df.cell idx "OrderList"))))],
            correction := Correction.fields [("Supplier", FieldVal.cell (Cell.str "Pharmax"))] } :
           Ligne)))
      CheckResult.ok df [msg]
        [{ type_erreur := "Supplier Name Variations (Pharmax drift)",
           texte_erreur :=
             "Supplier name variations detected for 'Pharmax' (normalize to 'Pharmax').",
           lignes := lignes }]
    else CheckResult.ok df [] []

/-- The distinct non-NaN `Product` keys of `df.groupby("Product")`.
pandas enumerates groups in sorted-key order; the development enumerates
them in first-occurrence order, which none of the proved statements can
distinguish (they quantify over issues and lignes, not their order). -/
def productKeys (df : DataFrame) : List Cell :=
  (uniqueFirst [] ((List.range df.nRows).map (fun i => df.cell i "Product"))).filter
    (fun p => decide (p ≠ Cell.null))

/-- The row positions of one product group. -/
def productGroup (df : DataFrame) (p : Cell) : List Nat :=
  (List.range df.nRows).filter (fun i => decide (df.cell i "Product" = p))

/-- `group["Dept Fullname"].dropna().unique()` for one product group. -/
def uniqueDepts (df : DataFrame) (p : Cell) : List Cell :=
  uniqueFirst []
    (((productGroup df p).map (fun i => df.cell i "Dept Fullname")).filter
      (fun d => decide (d ≠ Cell.null)))

/-- The issue built for one drifting product (`len(unique_depts) > 1`). -/
def categoryDriftIssue (df : DataFrame) (p : Cell) : String × Issue :=
  let depts := uniqueDepts df p
  let deptList := List.insertionSort (fun a b => pyStrLE a b = true) (depts.map pyStr)
  let deptInfo := depts.map (fun d =>
    let rows := (productGroup df p).filter (fun i => decide (df.cell i "Dept Fullname" = d))
    "'" ++ pyStr d ++ "' (rows " ++ pyNatList (rows.take 3) ++ ")")
  let lignes := depts.flatMap (fun d =>
    let rows := (productGroup df p).filter (fun i => decide (df.cell i "Dept Fullname" = d))
    rows.map (fun rowIdx =>
      (toString rowIdx,
       ({ default := Payload.fields [("Dept Fullname", FieldVal.cell d)],
          correction := Correction.fields [("Dept Fullname", FieldVal.strList deptList)] } :
         Ligne))))
  let msgPre :=
    if p = Cell.str "ExputexCoughSyrup200ml" then
      "[Category Drift] WARNING: Category drift detected for ExputexCoughSyrup200ml " ++
      "'" ++ pyStr p ++ "': (e.g., 'OTC' in Q1 2024 vs 'OTC:Cold&Flu' from April 1, 2024). "
    else
      "[Category Drift] WARNING: Category drift detected for product " ++
      "'" ++ pyStr p ++ "': "
  let msg :=
    msgPre ++ "categories found [" ++ String.intercalate ", " deptInfo ++
    "]. User should choose preferred 'Dept Fullname' among: " ++ pyStrList deptList ++ "."
  (msg,
   { type_erreur := "Category Drift",
     texte_erreur :=
       "Category drift detected for product '" ++ pyStr p ++
       "'. Product has multiple 'Dept Fullname' values.",
     lignes := lignes })

/-- `detect_correct.check_category_drifts`: products appearing under more
than one `Dept Fullname`. -/
def check_category_drifts (df : DataFrame) : CheckResult :=
  if "Product" ∉ df.cols ∨ "Dept Fullname" ∉ df.cols then CheckResult.ok df [] []
  else
    let drifting := (productKeys df).filter (fun p => (uniqueDepts df p).length > 1)
    let built := drifting.map (categoryDriftIssue df)
    CheckResult.ok df (built.map Prod.fst) (built.map Prod.snd)

/-- `pd.to_datetime` on a single `Sale Date` cell: NaN becomes NaT, numbers
are epoch values, strings must parse as `YYYY-MM-DD[ HH:MM:SS]`; `none`
means the conversion raises. -/
def parseCellDate (c : Cell) : Option Cell :=
  match c with
  | Cell.null => some Cell.null
  | Cell.num q => some (Cell.date q)
  | Cell.date t => some (Cell.date t)
  | Cell.str s => (Dates.parseDateString s).map Cell.date

/-- `pd.to_datetime(df_copy["Sale Date"])`: fails when any cell fails. -/
def parseSaleDateCol (df : DataFrame) : Option (List Cell) :=
  ((List.range df.nRows).map (fun i => df.cell i "Sale Date")).mapM parseCellDate

/-- The Sale-Date value of a row of the converted copy, `none` for NaT. -/
def saleDateVal (dfc : DataFrame) (i : Nat) : Option Rat :=
  match dfc.cell i "Sale Date" with
  | Cell.date t => some t
  | _ => none

/-- `sort_values("Sale Date")` comparison on row positions: NaT sorts last. -/
def dateLE (dfc : DataFrame) (i j : Nat) : Bool :=
  match saleDateVal dfc i, saleDateVal dfc j with
  | some a, some b => decide (a ≤ b)
  | some _, none => true
  | none, some _ => false
  | none, none => true

/-- The group key of a row: its cells on every column except `Sale Date`. -/
def nearDupKey (dfc : DataFrame) (colsToCheck : List String) (i : Nat) : List Cell :=
  colsToCheck.map (fun c => dfc.cell i c)

/-- `df_copy.groupby(cols_to_check, dropna=False)`: the groups as lists of
row positions (NaN keys group together under `dropna=False`); enumerated in
first-occurrence order where pandas sorts keys, indistinguishable to the
properties proved below. -/
def nearDupGroups (dfc : DataFrame) (colsToCheck : List String) : List (List Nat) :=
  (uniqueFirst [] ((List.range dfc.nRows).map (nearDupKey dfc colsToCheck))).map
    (fun k => (List.range dfc.nRows).filter
      (fun i => decide (nearDupKey dfc colsToCheck i = k)))

/-- The near-duplicate pairs of one sorted group: consecutive positions
whose Sale-Date difference is `≤ 1` second (a NaT on either side never
qualifies; position 0 has no predecessor). -/
def groupPairs (dfc : DataFrame) (sorted : List Nat) : List (Nat × Nat) :=
  ((List.range sorted.length).filter (fun pos =>
      decide (1 ≤ pos) &&
        match saleDateVal dfc (sorted.getD pos 0),
              saleDateVal dfc (sorted.getD (pos - 1) 0) with
        | some a, some b => decide (qabs (qsub a b) ≤ 1)
        | _, _ => false)).map
    (fun pos => (sorted.getD (pos - 1) 0, sorted.getD pos 0))

/-- Insertion into the `lignes` dict: first write wins, insertion order. -/
def insertLigne (lignes : List (String × Ligne)) (k : String) (v : Ligne) :
    List (String × Ligne) :=
  if lignes.any (fun kv => kv.1 == k) then lignes else lignes ++ [(k, v)]

/-- The `lignes` value stored for a near-duplicate row: the original
`df.loc[idx]` row and `correction = None`. -/
def nearDupLigne (df : DataFrame) (idx : Nat) : Ligne :=
  { default := Payload.row (df.rowDict idx), correction := Correction.delete }

/-- All near-duplicate pairs of the frame, in group order. -/
def nearDupPairs (dfc : DataFrame) (colsToCheck : List String) : List (Nat × Nat) :=
  ((nearDupGroups dfc colsToCheck).filter (fun g => decide (2 ≤ g.length))).flatMap
    (fun g => groupPairs dfc (List.insertionSort (fun i j => dateLE dfc i j = true) g))

/-- `detect_correct.check_near_duplicate_rows`.  The `try` only covers the
`pd.to_datetime` conversion; when `Sale Date` is the only column the later
`groupby([])` raises `ValueError: No group keys passed!`, which escapes to
the caller (`outcome = none`). -/
def check_near_duplicate_rows (df : DataFrame) : CheckResult :=
  if "Sale Date" ∉ df.cols then CheckResult.ok df [] []
  else
    match parseSaleDateCol df with
    | none => CheckResult.ok df [] []
    | some parsed =>
        let dfc := df.copy.setCol "Sale Date" parsed
        let colsToCheck := dfc.cols.filter (fun c => decide (c ≠ "Sale Date"))
        if colsToCheck.isEmpty then { post := df, outcome := none }
        else
          let pairs := nearDupPairs dfc colsToCheck
          let lignes := pairs.foldl
            (fun acc pr =>
              insertLigne (insertLigne acc (toString pr.1) (nearDupLigne df pr.1))
                (toString pr.2) (nearDupLigne df pr.2))
            []
          if pairs.isEmpty then CheckResult.ok df [] []
          else
            let msg :=
              "[Near-Duplicate Rows] WARNING: Detected " ++ toString pairs.length ++
              " near-duplicate row pairs (identical on all columns except 'Sale Date'," ++
              " which differs by ≤ 1 second)."
            CheckResult.ok df [msg]
              [{ type_erreur := "Near-Duplicate Rows",
                 texte_erreur :=
                   "Near-duplicate rows detected (identical except for 'Sale Date' within ±1 second).",
                 lignes := lignes }]

/-- The checks of `detect_correct.main`, in program order. -/
inductive CheckId where
  | missing | dup | whitespace | supplier | category | neardup
deriving DecidableEq, Repr

/-- Dispatch one check. -/
def runCheck : CheckId → DataFrame → CheckResult
  | CheckId.missing, df => check_missing_values df
  | CheckId.dup, df => check_duplicates df
  | CheckId.whitespace, df => check_product_whitespace df
  | CheckId.supplier, df => check_supplier_variations df
  | CheckId.category, df => check_category_drifts df
  | CheckId.neardup, df => check_near_duplicate_rows df

/-- The fixed program order of `main`. -/
def checkOrder : List CheckId :=
  [CheckId.missing, CheckId.dup, CheckId.whitespace,
   CheckId.supplier, CheckId.category, CheckId.neardup]

/-- Sequential invocation of a list of checks on `df`, each result
collected in turn. -/
def runList (order : List CheckId) (df : DataFrame) : List CheckResult :=
  order.foldl (fun acc c => acc ++ [runCheck c df]) []

/-- The `(all_messages, all_issues)` accumulation of `main`; `none` when a
check lets an exception escape, which aborts the whole program. -/
def collect (df : DataFrame) : Option (List String × List Issue) :=
  checkOrder.foldlM
    (fun acc c =>
      match (runCheck c df).outcome with
      | some mi => some (acc.1 ++ mi.1, acc.2 ++ mi.2)
      | none => none)
    ([], [])

/-- `file_path.rsplit(".", 1)[0] + "_anomalies.json"`. -/
def outputJsonPath (p : String) : String :=
  (let parts := splitChar '.' p
   if parts.length ≤ 1 then p else String.intercalate "." parts.dropLast)
  ++ "_anomalies.json"

/-- The file-system effects of one `main` run on an already loaded frame:
which writes were attempted, which completed (`writeOk` says whether the
`open`/`json.dump` succeeds; its failure is caught), and whether the run
died on an uncaught exception. -/
structure MainRun where
  attemptedWrites : List (String × List Issue)
  completedWrites : List (String × List Issue)
  crashed : Bool
deriving DecidableEq, Repr

/-- `detect_correct.main` after a successful `load_dataset(file_path)`. -/
def mainRun (df : DataFrame) (filePath : String) (writeOk : Bool) : MainRun :=
  match collect df with
  | none => { attemptedWrites := [], completedWrites := [], crashed := true }
  | some mi =>
      { attemptedWrites := [(outputJsonPath filePath, mi.2)],
        completedWrites := if writeOk then [(outputJsonPath filePath, mi.2)] else [],
        crashed := false }

end DetectCorrect

namespace DetectErrors1

/-- `df.duplicated()` membership (default `keep='first'`): some EARLIER row
is identical; pandas special-cases an empty frame. -/
def isDupKeepFirst (df : DataFrame) (i : Nat) : Bool :=
  !df.cols.isEmpty &&
    (List.range i).any (fun j => decide (df.rowAt j = df.rowAt i))

/-- `df.duplicated().sum()` of `detect_errors_1.check_duplicates`. -/
def duplicateCount (df : DataFrame) : Nat :=
  ((List.range df.nRows).filter (fun i => isDupKeepFirst df i)).length

/-- `detect_errors_1.check_duplicates`: one message when any row duplicates
an earlier one. -/
def check_duplicates (df : DataFrame) : List String :=
  if duplicateCount df > 0 then
    ["ERROR: There are " ++ toString (duplicateCount df) ++ " duplicate rows."]
  else []

end DetectErrors1

namespace ErrorsCounting

/-- The counters returned by `count_exact_duplicates`. -/
structure DupStats where
  rows_involved : Nat
  duplicate_groups : Nat
deriving DecidableEq, Repr

/-- `errors_counting_check.count_exact_duplicates`.  On a frame with rows
but no columns, `duplicated` yields an empty boolean Series that cannot be
aligned by `df[dup_mask]`, and the escaping `IndexingError` is modelled by
`none`. -/
def count_exact_duplicates (df : DataFrame) : Option DupStats :=
  if df.cols.isEmpty ∧ df.nRows > 0 then none
  else
    let dups := DetectCorrect.duplicateIndices df
    some
      { rows_involved := dups.length,
        duplicate_groups :=
          (DetectCorrect.uniqueFirst [] (dups.map df.rowAt)).length }

/-- The supplier column search list of `count_pharmax_variations`. -/
def possibleCols : List String :=
  ["OrderList", "Supplier", "Supplier Name", "Supplier_Name",
   "Manufacturer", "Manufacturer Name"]

/-- The first supplier-like column present in the frame. -/
def supplierCol (df : DataFrame) : Option String :=
  possibleCols.find? (fun c => decide (c ∈ df.cols))

/-- Pharmax-family test of one supplier cell (NaN rows are skipped). -/
def isPharmaxFamily (c : Cell) : Bool :=
  match c with
  | Cell.null => false
  | c => pyStartsWith (pyLower (normWS (pyStr c))) "pharmax"

/-- Canonical-`Pharmax` test of one supplier cell. -/
def isCanonicalPharmax (c : Cell) : Bool :=
  isPharmaxFamily c && decide (normWS (pyStr c) = "Pharmax")

/-- The result record of `count_pharmax_variations` (`by_value` is the
`value_counts().to_dict()` of the normalised family values; pandas orders
the dict by descending count, an order none of the invariants below see). -/
structure PharmaxStats where
  pharmax_total : Nat
  canonical_pharmax : Nat
  variations : Int
  by_value : List (String × Nat)
deriving DecidableEq, Repr

/-- The normalised supplier strings of the Pharmax-family rows, in row
order. -/
def famValues (df : DataFrame) (col : String) : List String :=
  (((List.range df.nRows).map (fun i => df.cell i col)).filter isPharmaxFamily).map
    (fun c => normWS (pyStr c))

/-- `errors_counting_check.count_pharmax_variations`. -/
def count_pharmax_variations (df : DataFrame) : PharmaxStats :=
  match supplierCol df with
  | none =>
      { pharmax_total := 0, canonical_pharmax := 0, variations := 0, by_value := [] }
  | some col =>
      let cellsOf := (List.range df.nRows).map (fun i => df.cell i col)
      let total := (cellsOf.filter isPharmaxFamily).length
      let canonical := (cellsOf.filter isCanonicalPharmax).length
      let fam := famValues df col
      { pharmax_total := total,
        canonical_pharmax := canonical,
        variations := (total : Int) - (canonical : Int),
        by_value := fam.dedup.map (fun v => (v, fam.count v)) }

end ErrorsCounting

/-- `pd.to_numeric(column, errors="coerce")` on one cell: numbers keep
their value, plain decimal strings parse, everything else coerces to NaN. -/
def toNumeric (c : Cell) : Option Rat :=
  match c with
  | Cell.num q => some q
  | Cell.str s => parseRat s
  | _ => none

namespace DetectErrors6

/-- `calculated_turnover = turnover_ex_vat + vat` (NaN-propagating). -/
def calculatedTurnover (df : DataFrame) (i : Nat) : Option Rat :=
  match toNumeric (df.cell i "Turnover ex VAT"), toNumeric (df.cell i "Vat Amount") with
  | some b, some c => some (qadd b c)
  | _, _ => none

/-- Row membership in `inconsistent_mask`:
`(abs(turnover - calculated) > 0.02) & turnover.notna() & calculated.notna()`. -/
def turnoverInconsistentAt (df : DataFrame) (i : Nat) : Bool :=
  match toNumeric (df.cell i "Turnover"), calculatedTurnover df i with
  | some a, some c => decide (qabs (qsub a c) > mkRat 2 100)
  | _, _ => false

/-- The rows of `inconsistent_mask`. -/
def turnoverInconsistentRows (df : DataFrame) : List Nat :=
  (List.range df.nRows).filter (fun i => turnoverInconsistentAt df i)

/-- Row membership in `invalid_pricing`: `RRP < Trade Price`, both numeric. -/
def invalidPricingAt (df : DataFrame) (i : Nat) : Bool :=
  match toNumeric (df.cell i "RRP"), toNumeric (df.cell i "Trade Price") with
  | some r, some t => decide (r < t)
  | _, _ => false

/-- The rows of `invalid_pricing`. -/
def invalidPricingRows (df : DataFrame) : List Nat :=
  (List.range df.nRows).filter (fun i => invalidPricingAt df i)

/-- The turnover-inconsistency message. -/
def turnoverMsg (df : DataFrame) : String :=
  "ERROR: Financial inconsistency detected: Turnover != Turnover ex VAT + Vat Amount at rows " ++
  pyNatList ((turnoverInconsistentRows df).take 3) ++ "."

/-- The pricing message. -/
def pricingMsg (df : DataFrame) : String :=
  "WARNING: RRP is less than Trade Price at rows " ++
  pyNatList ((invalidPricingRows df).take 3) ++ "."

/-- `detect_errors_6.check_financial_consistency`. -/
def check_financial_consistency (df : DataFrame) : List String :=
  (if "Turnover" ∈ df.cols ∧ "Vat Amount" ∈ df.cols ∧ "Turnover ex VAT" ∈ df.cols then
    if (turnoverInconsistentRows df).isEmpty then [] else [turnoverMsg df]
   else []) ++
  (if "RRP" ∈ df.cols ∧ "Trade Price" ∈ df.cols then
    if (invalidPricingRows df).isEmpty then [] else [pricingMsg df]
   else [])

end DetectErrors6

namespace DetectErrors10

/-- Row membership in `inconsistent_mask` of the turnover block:
`(diff > 0.02) & turnover.notna() & vat_amount.notna() & turnover_ex_vat.notna()`. -/
def turnoverInconsistentAt (df : DataFrame) (i : Nat) : Bool :=
  match toNumeric (df.cell i "Turnover"), toNumeric (df.cell i "Vat Amount"),
        toNumeric (df.cell i "Turnover ex VAT") with
  | some t, some v, some tx => decide (qabs (qsub t (qadd tx v)) > mkRat 2 100)
  | _, _, _ => false

/-- The rows of the turnover `inconsistent_mask`. -/
def turnoverInconsistentRows (df : DataFrame) : List Nat :=
  (List.range df.nRows).filter (fun i => turnoverInconsistentAt df i)

/-- Row membership in the profit `inconsistent_mask`. -/
def profitInconsistentAt (df : DataFrame) (i : Nat) : Bool :=
  match toNumeric (df.cell i "Turnover ex VAT"), toNumeric (df.cell i "Trade Price"),
        toNumeric (df.cell i "Qty Sold"), toNumeric (df.cell i "Profit") with
  | some tx, some tp, some q, some p =>
      decide (qabs (qsub p (qsub tx (qmul tp q))) > mkRat 2 100)
  | _, _, _, _ => false

/-- The rows of the profit `inconsistent_mask`. -/
def profitInconsistentRows (df : DataFrame) : List Nat :=
  (List.range df.nRows).filter (fun i => profitInconsistentAt df i)

/-- The turnover-inconsistency message. -/
def turnoverMsg (df : DataFrame) : String :=
  "WARNING: Turnover calculation inconsistency detected (Turnover != Turnover ex VAT + Vat Amount). Example rows: " ++
  pyNatList ((turnoverInconsistentRows df).take 3) ++ "."

/-- The profit-inconsistency message. -/
def profitMsg (df : DataFrame) : String :=
  "WARNING: Profit calculation inconsistency detected. Example rows: " ++
  pyNatList ((profitInconsistentRows df).take 3) ++ "."

/-- `detect_errors_10.check_financial_consistency`. -/
def check_financial_consistency (df : DataFrame) : List String :=
  (if "Turnover" ∈ df.cols ∧ "Vat Amount" ∈ df.cols ∧ "Turnover ex VAT" ∈ df.cols then
    if (turnoverInconsistentRows df).isEmpty then [] else [turnoverMsg df]
   else []) ++
  (if "Turnover ex VAT" ∈ df.cols ∧ "Trade Price" ∈ df.cols ∧ "Qty Sold" ∈ df.cols ∧
      "Profit" ∈ df.cols then
    if (profitInconsistentRows df).isEmpty then [] else [profitMsg df]
   else [])

end DetectErrors10

namespace Sampling

/-- The row positions selected by `smart_sample_dataframe` when
`len(df) > max_sample_rows`.  `sampler pool n` stands for
`df.iloc[pool].sample(n=n, random_state=42).index`: an arbitrary selection
from the pool whose behaviour is constrained only by the hypotheses of the
theorem below. -/
def samplePositions (sampler : List Nat → Nat → List Nat) (n m : Nat) : List Nat :=
  let k := m / 3
  let headIdx := List.range k
  let middlePool := (List.range (n - 2 * k)).map (fun i => i + k)
  let middleIdx :=
    if n - k > k then sampler middlePool (min k (n - k - k)) else []
  let tailIdx := (List.range k).map (fun i => i + (n - k))
  List.insertionSort (fun a b => a ≤ b) (headIdx ++ middleIdx ++ tailIdx)

/-- `app/sampling.smart_sample_dataframe`. -/
def smart_sample_dataframe (sampler : List Nat → Nat → List Nat)
    (df : DataFrame) (m : Nat) : DataFrame :=
  if df.nRows ≤ m then df.copy
  else
    { cols := df.cols, dtypes := df.dtypes,
      rows := (samplePositions sampler df.nRows m).map df.rowAt }

end Sampling

/-! ### Shared lemmas -/

namespace DetectCorrect

theorem setCol_cols (df : DataFrame) (c : String) (vals : List Cell) :
    (df.setCol c vals).cols = df.cols := by
  unfold DataFrame.setCol
  split <;> rfl

theorem post_missing (df : DataFrame) : (check_missing_values df).post = df := by
  unfold check_missing_values
  dsimp only
  split
  · rfl
  · split <;> rfl

theorem post_dup (df : DataFrame) : (check_duplicates df).post = df := by
  unfold check_duplicates
  dsimp only
  split
  · rfl
  · split <;> rfl

theorem post_whitespace (df : DataFrame) : (check_product_whitespace df).post = df := by
  unfold check_product_whitespace
  dsimp only
  split
  · rfl
  · split <;> rfl

theorem post_supplier (df : DataFrame) : (check_supplier_variations df).post = df := by
  unfold check_supplier_variations
  dsimp only
  split
  · rfl
  · split <;> rfl

theorem post_category (df : DataFrame) : (check_category_drifts df).post = df := by
  unfold check_category_drifts
  dsimp only
  split <;> rfl

theorem post_neardup (df : DataFrame) : (check_near_duplicate_rows df).post = df := by
  unfold check_near_duplicate_rows
  dsimp only
  split
  · rfl
  · split
    · rfl
    · split
      · rfl
      · split <;> rfl

theorem missing_some (df : DataFrame) :
    ∃ p, (check_missing_values df).outcome = some p := by
  unfold check_missing_values
  dsimp only
  split
  · exact ⟨_, rfl⟩
  · split <;> exact ⟨_, rfl⟩

theorem dup_some (df : DataFrame) (h : ¬(df.cols.isEmpty = true ∧ df.nRows > 0)) :
    ∃ p, (check_duplicates df).outcome = some p := by
  unfold check_duplicates
  dsimp only
  rw [if_neg h]
  split <;> exact ⟨_, rfl⟩

theorem dup_outcome_none_iff (df : DataFrame) :
    (check_duplicates df).outcome = none ↔
      df.cols.isEmpty = true ∧ df.nRows > 0 := by
  unfold check_duplicates
  dsimp only
  split
  · rename_i h
    simpa using h
  · rename_i h
    split
    · simp only [CheckResult.ok]
      simp
      simpa using h
    · simp only [CheckResult.ok]
      simp
      simpa using h

theorem whitespace_some (df : DataFrame) :
    ∃ p, (check_product_whitespace df).outcome = some p := by
  unfold check_product_whitespace
  dsimp only
  split
  · exact ⟨_, rfl⟩
  · split <;> exact ⟨_, rfl⟩

theorem supplier_some (df : DataFrame) :
    ∃ p, (check_supplier_variations df).outcome = some p := by
  unfold check_supplier_variations
  dsimp only
  split
  · exact ⟨_, rfl⟩
  · split <;> exact ⟨_, rfl⟩

theorem category_some (df : DataFrame) :
    ∃ p, (check_category_drifts df).outcome = some p := by
  unfold check_category_drifts
  dsimp only
  split <;> exact ⟨_, rfl⟩

/-- Messages of one check when it returns normally. -/
def checkMsgs (c : CheckId) (df : DataFrame) : List String :=
  ((runCheck c df).outcome.getD ([], [])).1

/-- Issues of one check when it returns normally. -/
def checkIssues (c : CheckId) (df : DataFrame) : List Issue :=
  ((runCheck c df).outcome.getD ([], [])).2

end DetectCorrect

/-! ### Concrete frames used by counterexamples and witnesses -/

/-- A frame whose only column is a parseable `Sale Date`. -/
def dfOnlySaleDate : DataFrame :=
  { cols := ["Sale Date"], dtypes := [DType.object],
    rows := [[Cell.str "2024-01-01 00:00:00"]] }

/-- A one-column frame with two identical rows. -/
def dfTwoDups : DataFrame :=
  { cols := ["A"], dtypes := [DType.object],
    rows := [[Cell.str "x"], [Cell.str "x"]] }

/-! ### Claims -/

open DetectCorrect in
/-- C2: every check of `detect_correct.py` is pure in the frame: the input
dataframe is unchanged by the call (all mutation happens on `df.copy()`
copies), for all six checks. -/
theorem claim_C2_checks_pure (df : DataFrame) :
    (check_missing_values df).post = df ∧
    (check_duplicates df).post = df ∧
    (check_product_whitespace df).post = df ∧
    (check_supplier_variations df).post = df ∧
    (check_category_drifts df).post = df ∧
    (check_near_duplicate_rows df).post = df :=
  ⟨post_missing df, post_dup df, post_whitespace df, post_supplier df,
   post_category df, post_neardup df⟩

namespace DetectCorrect

theorem runList_eq_map (order : List CheckId) (df : DataFrame) :
    runList order df = order.map (fun c => runCheck c df) := by
  have h : ∀ (acc : List CheckResult) (o : List CheckId),
      o.foldl (fun a c => a ++ [runCheck c df]) acc =
        acc ++ o.map (fun c => runCheck c df) := by
    intro acc o
    induction o generalizing acc with
    | nil => simp
    | cons c o ih => simp [List.foldl, ih]
  simpa using h [] order

end DetectCorrect

open DetectCorrect in
/-- C3: no shared state between checks — on every frame `load_dataset`
can produce (a frame with rows always has a column), whenever the run
completes (the last check returns), the `(all_messages, all_issues)`
accumulated by `main` are exactly the concatenations, in program order, of
what each check produces alone on `df`; and running the checks in any
order yields at every position the result of that check applied alone to
`df`. -/
theorem claim_C3_no_shared_state (df : DataFrame)
    (hload : ¬(df.cols.isEmpty = true ∧ df.nRows > 0))
    (m6 : List String) (i6 : List Issue)
    (h : (check_near_duplicate_rows df).outcome = some (m6, i6)) :
    collect df = some
      (checkMsgs CheckId.missing df ++ checkMsgs CheckId.dup df ++
        checkMsgs CheckId.whitespace df ++ checkMsgs CheckId.supplier df ++
        checkMsgs CheckId.category df ++ m6,
       checkIssues CheckId.missing df ++ checkIssues CheckId.dup df ++
        checkIssues CheckId.whitespace df ++ checkIssues CheckId.supplier df ++
        checkIssues CheckId.category df ++ i6) ∧
    ∀ order : List CheckId, runList order df = order.map (fun c => runCheck c df) := by
  constructor
  · obtain ⟨⟨a1, b1⟩, h1⟩ := missing_some df
    obtain ⟨⟨a2, b2⟩, h2⟩ := dup_some df hload
    obtain ⟨⟨a3, b3⟩, h3⟩ := whitespace_some df
    obtain ⟨⟨a4, b4⟩, h4⟩ := supplier_some df
    obtain ⟨⟨a5, b5⟩, h5⟩ := category_some df
    simp [collect, checkOrder, List.foldlM, runCheck, h1, h2, h3, h4, h5, h,
      checkMsgs, checkIssues]
  · exact fun order => runList_eq_map order df

/-- C3 witness: on a concrete frame the run completes and the collected
pair is the concatenation of the per-check results. -/
theorem claim_C3_witness :
    DetectCorrect.collect dfTwoDups =
      some (DetectCorrect.checkMsgs DetectCorrect.CheckId.missing dfTwoDups ++
              DetectCorrect.checkMsgs DetectCorrect.CheckId.dup dfTwoDups ++
              DetectCorrect.checkMsgs DetectCorrect.CheckId.whitespace dfTwoDups ++
              DetectCorrect.checkMsgs DetectCorrect.CheckId.supplier dfTwoDups ++
              DetectCorrect.checkMsgs DetectCorrect.CheckId.category dfTwoDups ++ [],
            DetectCorrect.checkIssues DetectCorrect.CheckId.missing dfTwoDups ++
              DetectCorrect.checkIssues DetectCorrect.CheckId.dup dfTwoDups ++
              DetectCorrect.checkIssues DetectCorrect.CheckId.whitespace dfTwoDups ++
              DetectCorrect.checkIssues DetectCorrect.CheckId.supplier dfTwoDups ++
              DetectCorrect.checkIssues DetectCorrect.CheckId.category dfTwoDups ++ []) :=
  (claim_C3_no_shared_state dfTwoDups (by decide) [] [] (by decide)).1

/-- A frame with one row and no columns (`pd.DataFrame(index=[0])`). -/
def dfRowsNoCols : DataFrame :=
  { cols := [], dtypes := [], rows := [[]] }

open DetectCorrect in
/-- C1 counterexample: two checks let exceptions escape on degenerate
frames.  On a frame whose only column is a parseable `Sale Date`,
`check_near_duplicate_rows` does not return `([], [])` — the
`df_copy.groupby([])` call raises `ValueError: No group keys passed!`,
which escapes to the caller (the `try` only covers `pd.to_datetime`).  And
on a frame with a row but no columns, `check_duplicates` raises an
`IndexingError` from `df[duplicated_mask]` (the `df.empty` shortcut makes
the mask an empty Series that cannot be aligned).  The claim asserted
every check returns normally on every dataframe, degenerate ones
included. -/
theorem claim_C1_counterexample :
    (check_near_duplicate_rows dfOnlySaleDate).outcome = none ∧
    (check_duplicates dfRowsNoCols).outcome = none := by decide

open DetectCorrect in
/-- C1 amended: every guard of the claim holds — `check_missing_values`
returns `([], [])` when `Product` is absent, `check_product_whitespace`
when `Product` is absent or not of object dtype, and
`check_near_duplicate_rows` when `Sale Date` is absent or fails datetime
conversion; `check_missing_values`, `check_product_whitespace`,
`check_supplier_variations` and `check_category_drifts` never let an
exception escape.  However two checks do raise on degenerate frames:
`check_near_duplicate_rows` raises if and only if `Sale Date` is present
and parseable but is the only column (the uncaught `groupby([])`
`ValueError`), and `check_duplicates` raises if and only if the frame has
rows but no columns (the unalignable empty `duplicated(keep=False)` mask
in `df[duplicated_mask]`). -/
theorem claim_C1_amended (df : DataFrame) :
    ("Product" ∉ df.cols → check_missing_values df = CheckResult.ok df [] []) ∧
    ("Product" ∉ df.cols ∨ df.dtypeOf "Product" ≠ some DType.object →
      check_product_whitespace df = CheckResult.ok df [] []) ∧
    ("Sale Date" ∉ df.cols → check_near_duplicate_rows df = CheckResult.ok df [] []) ∧
    (parseSaleDateCol df = none → check_near_duplicate_rows df = CheckResult.ok df [] []) ∧
    ((check_near_duplicate_rows df).outcome = none ↔
      "Sale Date" ∈ df.cols ∧ parseSaleDateCol df ≠ none ∧
        df.cols.filter (fun c => decide (c ≠ "Sale Date")) = []) ∧
    ((check_duplicates df).outcome = none ↔
      df.cols.isEmpty = true ∧ df.nRows > 0) ∧
    (∃ p, (check_missing_values df).outcome = some p) ∧
    (∃ p, (check_product_whitespace df).outcome = some p) ∧
    (∃ p, (check_supplier_variations df).outcome = some p) ∧
    (∃ p, (check_category_drifts df).outcome = some p) := by
  refine ⟨?_, ?_, ?_, ?_, ?_, dup_outcome_none_iff df, missing_some df,
    whitespace_some df, supplier_some df, category_some df⟩
  · intro h
    unfold check_missing_values
    rw [if_pos h]
  · intro h
    unfold check_product_whitespace
    rw [if_pos h]
  · intro h
    unfold check_near_duplicate_rows
    rw [if_pos h]
  · intro h
    unfold check_near_duplicate_rows
    split
    · rfl
    · rw [h]
  · unfold check_near_duplicate_rows
    split
    · rename_i h
      simp [CheckResult.ok]
      intro hmem
      exact absurd hmem h
    · rename_i h
      have hmem : "Sale Date" ∈ df.cols := not_not.mp h
      cases hparse : parseSaleDateCol df with
      | none => simp [hparse, CheckResult.ok]
      | some parsed =>
          dsimp only
          rw [DataFrame.copy] at *
          have hcols : (df.setCol "Sale Date" parsed).cols = df.cols :=
            setCol_cols df "Sale Date" parsed
          rw [hcols]
          split
          · rename_i hempty
            simp only [List.isEmpty_iff] at hempty
            simp at hempty
            simp [hmem, hparse]
            exact hempty
          · rename_i hempty
            simp only [List.isEmpty_iff] at hempty
            simp at hempty
            obtain ⟨x, hx1, hx2⟩ := hempty
            split
            · simp [CheckResult.ok]
              intro _
              exact ⟨x, hx1, hx2⟩
            · simp [CheckResult.ok]
              intro _
              exact ⟨x, hx1, hx2⟩

theorem countP_strict_mono {α : Type} {l : List α} {p q : α → Bool}
    (h : ∀ x ∈ l, p x = true → q x = true) {a : α} (ha : a ∈ l)
    (hp : p a = false) (hq : q a = true) : l.countP p < l.countP q := by
  induction l with
  | nil => cases ha
  | cons b t ih =>
      rw [List.countP_cons, List.countP_cons]
      have hmono : t.countP p ≤ t.countP q :=
        List.countP_mono_left (fun x hx => h x (List.mem_cons_of_mem _ hx))
      rcases List.mem_cons.mp ha with rfl | hat
      · simp [hp, hq]
        omega
      · have hstrict : t.countP p < t.countP q :=
          ih (fun x hx => h x (List.mem_cons_of_mem _ hx)) hat
        have hble : (if p b = true then 1 else 0) ≤ (if q b = true then 1 else 0) := by
          by_cases hb : p b = true
          · simp [hb, h b (List.mem_cons_self b t) hb]
          · simp [hb]
        omega

theorem filter_range_head_min {n : Nat} {p : Nat → Bool} {i₀ : Nat} {t : List Nat}
    (hft : (List.range n).filter p = i₀ :: t) :
    ∀ x ∈ (List.range n).filter p, i₀ ≤ x := by
  have hpw : ((List.range n).filter p).Pairwise (· < ·) :=
    (List.pairwise_lt_range n).filter p
  intro x hx
  rw [hft] at hx hpw
  rcases List.mem_cons.mp hx with rfl | hxt
  · exact Nat.le_refl x
  · exact Nat.le_of_lt ((List.pairwise_cons.mp hpw).1 x hxt)

/-- C1 witness: the guards fire on a frame without the inspected columns. -/
theorem claim_C1_witness :
    DetectCorrect.check_missing_values dfTwoDups = CheckResult.ok dfTwoDups [] [] ∧
    DetectCorrect.check_product_whitespace dfTwoDups = CheckResult.ok dfTwoDups [] [] ∧
    DetectCorrect.check_near_duplicate_rows dfTwoDups = CheckResult.ok dfTwoDups [] [] :=
  ⟨(claim_C1_amended dfTwoDups).1 (by decide),
   (claim_C1_amended dfTwoDups).2.1 (by decide),
   (claim_C1_amended dfTwoDups).2.2.1 (by decide)⟩

open DetectCorrect in
theorem mem_duplicateIndices {df : DataFrame} {i : Nat} :
    i ∈ duplicateIndices df ↔ i < df.nRows ∧ isDupKeepFalse df i = true := by
  unfold duplicateIndices
  rw [List.mem_filter, List.mem_range]

open DetectCorrect in
theorem keepFirst_imp_keepFalse (df : DataFrame) :
    ∀ x ∈ List.range df.nRows,
      DetectErrors1.isDupKeepFirst df x = true → isDupKeepFalse df x = true := by
  intro x hx h
  rw [List.mem_range] at hx
  unfold DetectErrors1.isDupKeepFirst at h
  unfold isDupKeepFalse
  simp only [Bool.and_eq_true, List.any_eq_true, List.mem_range, decide_eq_true_eq] at h ⊢
  obtain ⟨hcols, j, hj, heq⟩ := h
  exact ⟨hcols, j, Nat.lt_trans hj hx, Nat.ne_of_lt hj, heq⟩

/-- C4 counterexample: on a one-column frame with two identical rows,
`detect_errors_1.check_duplicates` counts 1 duplicate row
(`df.duplicated()`, `keep='first'`) while `detect_correct.check_duplicates`
marks 2 (`keep=False`), so the reported duplicate counts are not equal on
every input as the claim states. -/
theorem claim_C4_counterexample :
    DetectErrors1.duplicateCount dfTwoDups = 1 ∧
    (DetectCorrect.duplicateIndices dfTwoDups).length = 2 ∧
    DetectErrors1.duplicateCount dfTwoDups ≠
      (DetectCorrect.duplicateIndices dfTwoDups).length := by decide

open DetectCorrect in
/-- C4 amended: `detect_correct.check_duplicates` and
`errors_counting_check.count_exact_duplicates` mark the same rows — on any
frame where the latter returns (its `df[dup_mask]` needs a column when rows
exist), `rows_involved` is exactly the size of `detect_correct`'s
`keep=False` set; `detect_errors_1.check_duplicates` instead marks the
subset of rows with an identical EARLIER row, so its count is never larger,
and is strictly smaller whenever any duplicate exists. -/
theorem claim_C4_amended (df : DataFrame)
    (h : ¬(df.cols.isEmpty = true ∧ df.nRows > 0)) :
    (∃ stats, ErrorsCounting.count_exact_duplicates df = some stats ∧
      stats.rows_involved = (duplicateIndices df).length) ∧
    (∀ i < df.nRows,
      DetectErrors1.isDupKeepFirst df i = true → isDupKeepFalse df i = true) ∧
    DetectErrors1.duplicateCount df ≤ (duplicateIndices df).length ∧
    (duplicateIndices df ≠ [] →
      DetectErrors1.duplicateCount df < (duplicateIndices df).length) := by
  refine ⟨?_, ?_, ?_, ?_⟩
  · refine ⟨{ rows_involved := (duplicateIndices df).length,
              duplicate_groups :=
                (uniqueFirst [] ((duplicateIndices df).map df.rowAt)).length },
            ?_, rfl⟩
    unfold ErrorsCounting.count_exact_duplicates
    rw [if_neg h]
  · intro i hi
    exact keepFirst_imp_keepFalse df i (List.mem_range.mpr hi)
  · unfold DetectErrors1.duplicateCount duplicateIndices
    rw [← List.countP_eq_length_filter, ← List.countP_eq_length_filter]
    exact List.countP_mono_left (keepFirst_imp_keepFalse df)
  · intro hne
    rcases hft : duplicateIndices df with _ | ⟨i₀, t⟩
    · exact absurd hft hne
    · have hi₀mem : i₀ ∈ duplicateIndices df := by
        rw [hft]; exact List.mem_cons_self i₀ t
      obtain ⟨hi₀n, hi₀kf⟩ := mem_duplicateIndices.mp hi₀mem
      have hnotfirst : DetectErrors1.isDupKeepFirst df i₀ = false := by
        rw [Bool.eq_false_iff]
        intro hkf
        unfold DetectErrors1.isDupKeepFirst at hkf
        simp only [Bool.and_eq_true, List.any_eq_true, List.mem_range,
          decide_eq_true_eq] at hkf
        obtain ⟨hcols, j, hj, heq⟩ := hkf
        have hjdup : j ∈ duplicateIndices df := by
          rw [mem_duplicateIndices]
          refine ⟨Nat.lt_trans hj hi₀n, ?_⟩
          unfold isDupKeepFalse
          simp only [Bool.and_eq_true, List.any_eq_true, List.mem_range,
            decide_eq_true_eq]
          exact ⟨hcols, i₀, hi₀n, (Nat.ne_of_lt hj).symm, heq.symm⟩
        have := filter_range_head_min (p := fun i => isDupKeepFalse df i)
          (n := df.nRows) hft j hjdup
        omega
      rw [← hft]
      unfold DetectErrors1.duplicateCount duplicateIndices
      rw [← List.countP_eq_length_filter, ← List.countP_eq_length_filter]
      exact countP_strict_mono (keepFirst_imp_keepFalse df)
        (List.mem_range.mpr hi₀n) hnotfirst hi₀kf

/-- C4 witness: the amended relations instantiated on the two-duplicate
frame. -/
theorem claim_C4_witness :
    DetectErrors1.duplicateCount dfTwoDups <
      (DetectCorrect.duplicateIndices dfTwoDups).length :=
  (claim_C4_amended dfTwoDups (by decide)).2.2.2 (by decide)

open DetectCorrect in
/-- C9: in `detect_correct.check_duplicates` every member of a group of
identical rows — the first occurrence included — appears in the issue's
`lignes` with `correction = None` (delete), even though the message
suggests keeping the first occurrence; every entry of the issue carries
`correction = None`, so applying all suggestions deletes every copy. -/
theorem claim_C9_dup_lignes (df : DataFrame) (i : Nat) (hi : i < df.nRows)
    (hcols : df.cols ≠ [])
    (hdup : ∃ j < df.nRows, j ≠ i ∧ df.rowAt j = df.rowAt i) :
    ∃ msg iss, (check_duplicates df).outcome = some ([msg], [iss]) ∧
      (toString i,
        ({ default := Payload.row (df.rowDict i),
           correction := Correction.delete } : Ligne)) ∈ iss.lignes ∧
      ∀ kv ∈ iss.lignes, kv.2.correction = Correction.delete := by
  have hkf : isDupKeepFalse df i = true := by
    unfold isDupKeepFalse
    simp only [Bool.and_eq_true, List.any_eq_true, List.mem_range, decide_eq_true_eq]
    obtain ⟨j, hj, hne, heq⟩ := hdup
    exact ⟨by simpa [List.isEmpty_iff] using hcols, j, hj, hne, heq⟩
  have hmem : i ∈ duplicateIndices df := mem_duplicateIndices.mpr ⟨hi, hkf⟩
  have hpos : (duplicateIndices df).length > 0 :=
    List.length_pos.mpr (List.ne_nil_of_mem hmem)
  refine ⟨"[Exact Duplicate Rows] ERROR: There are " ++
      toString (duplicateIndices df).length ++
      " exact duplicate rows (all columns identical). Example rows: " ++
      pyNatList ((duplicateIndices df).take 3) ++
      ". Suggested fix: keep the first occurrence, drop the others.",
    { type_erreur := "Exact Duplicate Rows",
      texte_erreur :=
        "Exact duplicate rows detected. Keep first occurrence and drop subsequent duplicates.",
      lignes := (duplicateIndices df).map (fun idx =>
        (toString idx,
         ({ default := Payload.row (df.rowDict idx),
            correction := Correction.delete } : Ligne))) }, ?_, ?_, ?_⟩
  · unfold check_duplicates
    dsimp only
    rw [if_neg (fun hc => hcols (List.isEmpty_iff.mp hc.1))]
    rw [if_pos hpos]
    rfl
  · exact List.mem_map_of_mem _ hmem
  · intro kv hkv
    obtain ⟨x, _, rfl⟩ := List.mem_map.mp hkv
    rfl

/-- C9 witness: on the two-duplicate frame, row 0 (the first occurrence)
appears in `lignes` with `correction = None`. -/
theorem claim_C9_witness :
    ∃ msg iss,
      (DetectCorrect.check_duplicates dfTwoDups).outcome = some ([msg], [iss]) ∧
      (toString (0 : Nat),
        ({ default := Payload.row (dfTwoDups.rowDict 0),
           correction := Correction.delete } : Ligne)) ∈ iss.lignes ∧
      ∀ kv ∈ iss.lignes, kv.2.correction = Correction.delete :=
  claim_C9_dup_lignes dfTwoDups 0 (by decide) (by decide)
    ⟨1, by decide, by decide, by decide⟩

open ErrorsCounting in
/-- C10: the `count_pharmax_variations` record satisfies the invariants:
`canonical_pharmax ≤ pharmax_total`,
`variations = pharmax_total - canonical_pharmax ≥ 0`, the `by_value`
counts sum to `pharmax_total`, and everything is zero/empty when no
supplier-like column exists. -/
theorem claim_C10_pharmax_invariants (df : DataFrame) :
    (count_pharmax_variations df).canonical_pharmax ≤
      (count_pharmax_variations df).pharmax_total ∧
    (count_pharmax_variations df).variations =
      ((count_pharmax_variations df).pharmax_total : Int) -
        ((count_pharmax_variations df).canonical_pharmax : Int) ∧
    0 ≤ (count_pharmax_variations df).variations ∧
    ((count_pharmax_variations df).by_value.map Prod.snd).sum =
      (count_pharmax_variations df).pharmax_total ∧
    (supplierCol df = none →
      count_pharmax_variations df =
        { pharmax_total := 0, canonical_pharmax := 0, variations := 0,
          by_value := [] }) := by
  cases hcol : supplierCol df with
  | none =>
      have hrec : count_pharmax_variations df =
          { pharmax_total := 0, canonical_pharmax := 0, variations := 0,
            by_value := [] } := by
        unfold count_pharmax_variations
        rw [hcol]
      rw [hrec]
      simp
  | some col =>
      have hrec : count_pharmax_variations df =
          { pharmax_total :=
              (((List.range df.nRows).map (fun i => df.cell i col)).filter
                isPharmaxFamily).length,
            canonical_pharmax :=
              (((List.range df.nRows).map (fun i => df.cell i col)).filter
                isCanonicalPharmax).length,
            variations :=
              ((((List.range df.nRows).map (fun i => df.cell i col)).filter
                isPharmaxFamily).length : Int) -
              ((((List.range df.nRows).map (fun i => df.cell i col)).filter
                isCanonicalPharmax).length : Int),
            by_value :=
              (famValues df col).dedup.map
                (fun v => (v, (famValues df col).count v)) } := by
        unfold count_pharmax_variations
        rw [hcol]
      have hle :
          (((List.range df.nRows).map (fun i => df.cell i col)).filter
            isCanonicalPharmax).length ≤
          (((List.range df.nRows).map (fun i => df.cell i col)).filter
            isPharmaxFamily).length := by
        rw [← List.countP_eq_length_filter, ← List.countP_eq_length_filter]
        refine List.countP_mono_left (fun c _ hc => ?_)
        unfold isCanonicalPharmax at hc
        rw [Bool.and_eq_true] at hc
        exact hc.1
      rw [hrec]
      refine ⟨hle, rfl, ?_, ?_, ?_⟩
      · dsimp only
        omega
      · dsimp only
        rw [List.map_map]
        have hsum := List.sum_map_count_dedup_eq_length (famValues df col)
        have hfam : (famValues df col).length =
            ((((List.range df.nRows).map (fun i => df.cell i col)).filter
              isPharmaxFamily)).length := by
          unfold famValues
          rw [List.length_map]
        calc ((famValues df col).dedup.map
                ((fun p : String × Nat => p.2) ∘ fun v => (v, (famValues df col).count v))).sum
            = ((famValues df col).dedup.map (fun v => (famValues df col).count v)).sum := rfl
          _ = (famValues df col).length := hsum
          _ = _ := hfam
      · intro hnone
        cases hnone

/-- C10 witness: on a frame without a supplier-like column the record is
all zero/empty. -/
theorem claim_C10_witness :
    ErrorsCounting.count_pharmax_variations dfTwoDups =
      { pharmax_total := 0, canonical_pharmax := 0, variations := 0,
        by_value := [] } :=
  (claim_C10_pharmax_invariants dfTwoDups).2.2.2.2 (by decide)

theorem tol_eq : mkRat 2 100 = (2 : Rat) / 100 := by
  rw [Rat.mkRat_eq_divInt, Rat.divInt_eq_div]
  norm_num

theorem de6_msg_ne (df : DataFrame) :
    DetectErrors6.turnoverMsg df ≠ DetectErrors6.pricingMsg df := by
  unfold DetectErrors6.turnoverMsg DetectErrors6.pricingMsg
  intro h
  have h2 := congrArg (fun s => s.data.head?) h
  simp at h2

theorem de10_msg_ne (df : DataFrame) :
    DetectErrors10.turnoverMsg df ≠ DetectErrors10.profitMsg df := by
  unfold DetectErrors10.turnoverMsg DetectErrors10.profitMsg
  intro h
  have h2 := congrArg (fun s => s.data.get? 9) h
  simp at h2

theorem de6_inconsistentAt_iff (df : DataFrame) (i : Nat) :
    DetectErrors6.turnoverInconsistentAt df i = true ↔
      ∃ t tx v, toNumeric (df.cell i "Turnover") = some t ∧
        toNumeric (df.cell i "Turnover ex VAT") = some tx ∧
        toNumeric (df.cell i "Vat Amount") = some v ∧
        |t - (tx + v)| > (2 : Rat) / 100 := by
  unfold DetectErrors6.turnoverInconsistentAt DetectErrors6.calculatedTurnover
  cases h1 : toNumeric (df.cell i "Turnover") <;>
    cases h2 : toNumeric (df.cell i "Turnover ex VAT") <;>
      cases h3 : toNumeric (df.cell i "Vat Amount") <;>
        simp [qadd_eq, qsub_eq, qabs_eq, tol_eq]

theorem de10_inconsistentAt_iff (df : DataFrame) (i : Nat) :
    DetectErrors10.turnoverInconsistentAt df i = true ↔
      ∃ t tx v, toNumeric (df.cell i "Turnover") = some t ∧
        toNumeric (df.cell i "Turnover ex VAT") = some tx ∧
        toNumeric (df.cell i "Vat Amount") = some v ∧
        |t - (tx + v)| > (2 : Rat) / 100 := by
  unfold DetectErrors10.turnoverInconsistentAt
  cases h1 : toNumeric (df.cell i "Turnover") <;>
    cases h2 : toNumeric (df.cell i "Vat Amount") <;>
      cases h3 : toNumeric (df.cell i "Turnover ex VAT") <;>
        simp [qadd_eq, qsub_eq, qabs_eq, tol_eq]

theorem de6_membership_iff (df : DataFrame) :
    DetectErrors6.turnoverMsg df ∈ DetectErrors6.check_financial_consistency df ↔
      ("Turnover" ∈ df.cols ∧ "Vat Amount" ∈ df.cols ∧ "Turnover ex VAT" ∈ df.cols) ∧
        DetectErrors6.turnoverInconsistentRows df ≠ [] := by
  unfold DetectErrors6.check_financial_consistency
  rw [List.mem_append]
  have hnot2 : DetectErrors6.turnoverMsg df ∉
      (if "RRP" ∈ df.cols ∧ "Trade Price" ∈ df.cols then
        if (DetectErrors6.invalidPricingRows df).isEmpty then []
        else [DetectErrors6.pricingMsg df]
       else []) := by
    split
    · split
      · simp
      · simp [de6_msg_ne df]
    · simp
  rw [or_iff_left hnot2]
  split
  · rename_i hc
    split
    · rename_i he
      rw [List.isEmpty_iff] at he
      simp [hc, he]
    · rename_i he
      rw [List.isEmpty_iff] at he
      simp [hc, he]
  · rename_i hc
    simp [hc]

theorem de10_membership_iff (df : DataFrame) :
    DetectErrors10.turnoverMsg df ∈ DetectErrors10.check_financial_consistency df ↔
      ("Turnover" ∈ df.cols ∧ "Vat Amount" ∈ df.cols ∧ "Turnover ex VAT" ∈ df.cols) ∧
        DetectErrors10.turnoverInconsistentRows df ≠ [] := by
  unfold DetectErrors10.check_financial_consistency
  rw [List.mem_append]
  have hnot2 : DetectErrors10.turnoverMsg df ∉
      (if "Turnover ex VAT" ∈ df.cols ∧ "Trade Price" ∈ df.cols ∧
          "Qty Sold" ∈ df.cols ∧ "Profit" ∈ df.cols then
        if (DetectErrors10.profitInconsistentRows df).isEmpty then []
        else [DetectErrors10.profitMsg df]
       else []) := by
    split
    · split
      · simp
      · simp [de10_msg_ne df]
    · simp
  rw [or_iff_left hnot2]
  split
  · rename_i hc
    split
    · rename_i he
      rw [List.isEmpty_iff] at he
      simp [hc, he]
    · rename_i he
      rw [List.isEmpty_iff] at he
      simp [hc, he]
  · rename_i hc
    simp [hc]

theorem de6_rows_ne_nil_iff (df : DataFrame) :
    DetectErrors6.turnoverInconsistentRows df ≠ [] ↔
      ∃ i < df.nRows, ∃ t tx v, toNumeric (df.cell i "Turnover") = some t ∧
        toNumeric (df.cell i "Turnover ex VAT") = some tx ∧
        toNumeric (df.cell i "Vat Amount") = some v ∧
        |t - (tx + v)| > (2 : Rat) / 100 := by
  unfold DetectErrors6.turnoverInconsistentRows
  rw [ne_eq, List.filter_eq_nil_iff]
  push_neg
  constructor
  · rintro ⟨i, hi, hat⟩
    exact ⟨i, List.mem_range.mp hi, (de6_inconsistentAt_iff df i).mp hat⟩
  · rintro ⟨i, hi, hcond⟩
    exact ⟨i, List.mem_range.mpr hi, (de6_inconsistentAt_iff df i).mpr hcond⟩

theorem de10_rows_ne_nil_iff (df : DataFrame) :
    DetectErrors10.turnoverInconsistentRows df ≠ [] ↔
      ∃ i < df.nRows, ∃ t tx v, toNumeric (df.cell i "Turnover") = some t ∧
        toNumeric (df.cell i "Turnover ex VAT") = some tx ∧
        toNumeric (df.cell i "Vat Amount") = some v ∧
        |t - (tx + v)| > (2 : Rat) / 100 := by
  unfold DetectErrors10.turnoverInconsistentRows
  rw [ne_eq, List.filter_eq_nil_iff]
  push_neg
  constructor
  · rintro ⟨i, hi, hat⟩
    exact ⟨i, List.mem_range.mp hi, (de10_inconsistentAt_iff df i).mp hat⟩
  · rintro ⟨i, hi, hcond⟩
    exact ⟨i, List.mem_range.mpr hi, (de10_inconsistentAt_iff df i).mpr hcond⟩

/-- C7: both `detect_errors_6` and `detect_errors_10` report a turnover
inconsistency exactly when all three financial columns are present and some
row carries numeric values with `|Turnover - (Turnover ex VAT + Vat
Amount)| > 0.02`; when any of the three columns is absent no such finding
is produced. -/
theorem claim_C7_financial_consistency (df : DataFrame) :
    (DetectErrors6.turnoverMsg df ∈ DetectErrors6.check_financial_consistency df ↔
      ("Turnover" ∈ df.cols ∧ "Vat Amount" ∈ df.cols ∧ "Turnover ex VAT" ∈ df.cols) ∧
        ∃ i < df.nRows, ∃ t tx v, toNumeric (df.cell i "Turnover") = some t ∧
          toNumeric (df.cell i "Turnover ex VAT") = some tx ∧
          toNumeric (df.cell i "Vat Amount") = some v ∧
          |t - (tx + v)| > (2 : Rat) / 100) ∧
    (DetectErrors10.turnoverMsg df ∈ DetectErrors10.check_financial_consistency df ↔
      ("Turnover" ∈ df.cols ∧ "Vat Amount" ∈ df.cols ∧ "Turnover ex VAT" ∈ df.cols) ∧
        ∃ i < df.nRows, ∃ t tx v, toNumeric (df.cell i "Turnover") = some t ∧
          toNumeric (df.cell i "Turnover ex VAT") = some tx ∧
          toNumeric (df.cell i "Vat Amount") = some v ∧
          |t - (tx + v)| > (2 : Rat) / 100) ∧
    (¬("Turnover" ∈ df.cols ∧ "Vat Amount" ∈ df.cols ∧ "Turnover ex VAT" ∈ df.cols) →
      DetectErrors6.turnoverMsg df ∉ DetectErrors6.check_financial_consistency df ∧
      DetectErrors10.turnoverMsg df ∉ DetectErrors10.check_financial_consistency df) := by
  have h6 := (de6_membership_iff df).trans
    (and_congr_right (fun _ => de6_rows_ne_nil_iff df))
  have h10 := (de10_membership_iff df).trans
    (and_congr_right (fun _ => de10_rows_ne_nil_iff df))
  refine ⟨h6, h10, fun hc => ⟨?_, ?_⟩⟩
  · intro hmem
    exact hc (h6.mp hmem).1
  · intro hmem
    exact hc (h10.mp hmem).1

/-- A frame with one financially inconsistent row. -/
def dfFin : DataFrame :=
  { cols := ["Turnover", "Vat Amount", "Turnover ex VAT"],
    dtypes := [DType.numeric, DType.numeric, DType.numeric],
    rows := [[Cell.num 10, Cell.num 2, Cell.num 7]] }

/-- C7 witness: the finding is present on the inconsistent frame and
absent when the columns are missing. -/
theorem claim_C7_witness :
    DetectErrors6.turnoverMsg dfFin ∈ DetectErrors6.check_financial_consistency dfFin ∧
    DetectErrors6.turnoverMsg dfTwoDups ∉
      DetectErrors6.check_financial_consistency dfTwoDups :=
  ⟨(claim_C7_financial_consistency dfFin).1.mpr
      ⟨by decide, 0, by decide, 10, 7, 2, by decide, by decide, by decide, by norm_num⟩,
   ((claim_C7_financial_consistency dfTwoDups).2.2 (by decide)).1⟩

theorem rowAt_mem {df : DataFrame} {i : Nat} (h : i < df.nRows) :
    df.rowAt i ∈ df.rows := by
  unfold DataFrame.rowAt
  unfold DataFrame.nRows at h
  rw [List.getD_eq_getElem?_getD, List.getElem?_eq_getElem h]
  exact List.getElem_mem h

open Sampling in
/-- C5: `smart_sample_dataframe` keeps the whole frame when it fits in
`max_sample_rows`, and otherwise returns at most `m` of the original rows,
drawn from the first `m/3` positions, the last `m/3` positions and a
sample (of at most `m/3` rows) taken strictly between them, sorted by
index.  `sampler` stands for `DataFrame.sample(n, random_state=42)`: any
function returning `n` distinct positions of the requested slice, as the
hypotheses state. -/
theorem claim_C5_smart_sampling (sampler : List Nat → Nat → List Nat)
    (df : DataFrame) (m : Nat)
    (hs : ∀ pool cnt, (∀ x ∈ sampler pool cnt, x ∈ pool) ∧
      (sampler pool cnt).length = min cnt pool.length) :
    (df.nRows ≤ m → smart_sample_dataframe sampler df m = df) ∧
    (m < df.nRows →
      (smart_sample_dataframe sampler df m).nRows ≤ m ∧
      (∀ r ∈ (smart_sample_dataframe sampler df m).rows, r ∈ df.rows) ∧
      (∃ mid, (∀ x ∈ mid, m / 3 ≤ x ∧ x < df.nRows - m / 3) ∧
        mid.length ≤ m / 3 ∧
        (samplePositions sampler df.nRows m).Perm
          (List.range (m / 3) ++ mid ++
            (List.range (m / 3)).map (fun i => i + (df.nRows - m / 3)))) ∧
      List.Sorted (· ≤ ·) (samplePositions sampler df.nRows m) ∧
      (smart_sample_dataframe sampler df m).rows =
        (samplePositions sampler df.nRows m).map df.rowAt) := by
  constructor
  · intro hle
    unfold smart_sample_dataframe
    rw [if_pos hle]
    rfl
  · intro hlt
    have hk3 : m / 3 * 3 ≤ m := Nat.div_mul_le_self m 3
    have hcond : df.nRows - m / 3 > m / 3 := by omega
    have hsample := hs ((List.range (df.nRows - 2 * (m / 3))).map
      (fun i => i + m / 3)) (min (m / 3) (df.nRows - m / 3 - m / 3))
    have hposdef : samplePositions sampler df.nRows m =
        List.insertionSort (fun a b => a ≤ b)
          (List.range (m / 3) ++
            sampler ((List.range (df.nRows - 2 * (m / 3))).map (fun i => i + m / 3))
              (min (m / 3) (df.nRows - m / 3 - m / 3)) ++
            (List.range (m / 3)).map (fun i => i + (df.nRows - m / 3))) := by
      unfold samplePositions
      dsimp only
      rw [if_pos hcond]
    have hperm : (samplePositions sampler df.nRows m).Perm
        (List.range (m / 3) ++
          sampler ((List.range (df.nRows - 2 * (m / 3))).map (fun i => i + m / 3))
            (min (m / 3) (df.nRows - m / 3 - m / 3)) ++
          (List.range (m / 3)).map (fun i => i + (df.nRows - m / 3))) := by
      rw [hposdef]
      exact List.perm_insertionSort _ _
    have hmidmem : ∀ x ∈ sampler ((List.range (df.nRows - 2 * (m / 3))).map
        (fun i => i + m / 3)) (min (m / 3) (df.nRows - m / 3 - m / 3)),
        m / 3 ≤ x ∧ x < df.nRows - m / 3 := by
      intro x hx
      have hxmem := hsample.1 x hx
      rw [List.mem_map] at hxmem
      obtain ⟨i, hi, rfl⟩ := hxmem
      rw [List.mem_range] at hi
      omega
    have hmemn : ∀ x ∈ samplePositions sampler df.nRows m, x < df.nRows := by
      intro x hx
      rw [hperm.mem_iff, List.mem_append, List.mem_append] at hx
      rcases hx with (hx | hx) | hx
      · rw [List.mem_range] at hx
        omega
      · exact (hmidmem x hx).2.trans_le (Nat.sub_le _ _)
      · rw [List.mem_map] at hx
        obtain ⟨i, hi, rfl⟩ := hx
        rw [List.mem_range] at hi
        omega
    have hrows : (smart_sample_dataframe sampler df m).rows =
        (samplePositions sampler df.nRows m).map df.rowAt := by
      unfold smart_sample_dataframe
      rw [if_neg (Nat.not_le.mpr hlt)]
    refine ⟨?_, ?_, ?_, ?_, hrows⟩
    · have hlen : (smart_sample_dataframe sampler df m).nRows =
          (samplePositions sampler df.nRows m).length := by
        show (smart_sample_dataframe sampler df m).rows.length = _
        rw [hrows, List.length_map]
      rw [hlen, hperm.length_eq]
      rw [List.length_append, List.length_append, List.length_range,
        List.length_map, List.length_range, hsample.2, List.length_map,
        List.length_range]
      omega
    · intro r hr
      rw [hrows, List.mem_map] at hr
      obtain ⟨x, hx, rfl⟩ := hr
      exact rowAt_mem (hmemn x hx)
    · exact ⟨_, hmidmem, by rw [hsample.2, List.length_map, List.length_range]; omega,
        hperm⟩
    · rw [hposdef]
      exact List.sorted_insertionSort _ _

/-- The deterministic stand-in for `sample(n, random_state=42)` used by the
witness: take the first `n` positions of the slice. -/
def takeSampler (pool : List Nat) (cnt : Nat) : List Nat := pool.take cnt

/-- A ten-row frame. -/
def dfTen : DataFrame :=
  { cols := ["A"], dtypes := [DType.object],
    rows := (List.range 10).map (fun i => [Cell.str (toString i)]) }

/-- C5 witness: the sampler hypotheses hold for `takeSampler`, the small
case returns the frame itself and the large case respects the bound. -/
theorem claim_C5_witness :
    Sampling.smart_sample_dataframe takeSampler dfTen 20 = dfTen ∧
    (Sampling.smart_sample_dataframe takeSampler dfTen 6).nRows ≤ 6 := by
  have hs : ∀ pool cnt, (∀ x ∈ takeSampler pool cnt, x ∈ pool) ∧
      (takeSampler pool cnt).length = min cnt pool.length := by
    intro pool cnt
    exact ⟨fun x hx => List.take_subset _ _ hx, List.length_take _ _⟩
  exact ⟨(claim_C5_smart_sampling takeSampler dfTen 20 hs).1 (by decide),
    ((claim_C5_smart_sampling takeSampler dfTen 6 hs).2 (by decide)).1⟩

open DetectCorrect in
/-- C8 counterexample: on the frame whose only column is a parseable
`Sale Date` (loaded fine from e.g. a one-column CSV), `main` aborts in
`check_near_duplicate_rows` before reaching the write, so no
`_anomalies.json` file is written even though the load succeeded. -/
theorem claim_C8_counterexample :
    (mainRun dfOnlySaleDate "data.csv" true).attemptedWrites = [] ∧
    (mainRun dfOnlySaleDate "data.csv" true).crashed = true := by decide

open DetectCorrect in
/-- C8 amended: whenever the checks complete, `main` attempts exactly one
file write — the collected issues, JSON-serialised, at the path obtained
from the input path by dropping the final extension and appending
`_anomalies.json` — and a failing write is caught: the run completes
without crashing whether or not the write succeeds. -/
theorem claim_C8_persistence (df : DataFrame) (p : String) (writeOk : Bool)
    (hok : collect df ≠ none) :
    (mainRun df p writeOk).crashed = false ∧
    ∃ mi, collect df = some mi ∧
      (mainRun df p writeOk).attemptedWrites = [(outputJsonPath p, mi.2)] ∧
      (mainRun df p writeOk).completedWrites =
        (if writeOk then [(outputJsonPath p, mi.2)] else []) := by
  cases hcol : collect df with
  | none => exact absurd hcol hok
  | some mi =>
      unfold mainRun
      rw [hcol]
      exact ⟨rfl, mi, rfl, rfl, rfl⟩

open DetectCorrect in
/-- C8 witness: on a completing frame the run does not crash and attempts
the single derived write, with the failure path caught. -/
theorem claim_C8_witness :
    (mainRun dfTwoDups "data.csv" false).crashed = false :=
  (claim_C8_persistence dfTwoDups "data.csv" false (by decide)).1

namespace DetectCorrect

/-- The keys of an issue's `lignes` all name rows of `df`. -/
def validKeys (df : DataFrame) (iss : Issue) : Prop :=
  ∀ kv ∈ iss.lignes, ∃ i, i < df.nRows ∧ kv.1 = toString i

theorem validKeys_of_map_filter_range {df : DataFrame} {iss : Issue}
    {p : Nat → Bool} {f : Nat → Ligne}
    (h : iss.lignes = ((List.range df.nRows).filter p).map
      (fun idx => (toString idx, f idx))) : validKeys df iss := by
  intro kv hkv
  rw [h, List.mem_map] at hkv
  obtain ⟨idx, hidx, rfl⟩ := hkv
  rw [List.mem_filter, List.mem_range] at hidx
  exact ⟨idx, hidx.1, rfl⟩

theorem missing_validKeys (df : DataFrame) (mi : List String × List Issue)
    (h : (check_missing_values df).outcome = some mi) :
    ∀ iss ∈ mi.2, validKeys df iss := by
  unfold check_missing_values at h
  dsimp only at h
  split at h
  · cases h
    intro iss hiss
    cases hiss
  · split at h
    · cases h
      intro iss hiss
      cases hiss
    · cases h
      intro iss hiss
      rcases List.mem_singleton.mp hiss with rfl
      exact validKeys_of_map_filter_range rfl

theorem dup_validKeys (df : DataFrame) (mi : List String × List Issue)
    (h : (check_duplicates df).outcome = some mi) :
    ∀ iss ∈ mi.2, validKeys df iss := by
  unfold check_duplicates at h
  dsimp only at h
  split at h
  · cases h
  · split at h
    · cases h
      intro iss hiss
      rcases List.mem_singleton.mp hiss with rfl
      exact validKeys_of_map_filter_range rfl
    · cases h
      intro iss hiss
      cases hiss

theorem whitespace_validKeys (df : DataFrame) (mi : List String × List Issue)
    (h : (check_product_whitespace df).outcome = some mi) :
    ∀ iss ∈ mi.2, validKeys df iss := by
  unfold check_product_whitespace at h
  dsimp only at h
  split at h
  · cases h
    intro iss hiss
    cases hiss
  · split at h
    · cases h
      intro iss hiss
      rcases List.mem_singleton.mp hiss with rfl
      exact validKeys_of_map_filter_range rfl
    · cases h
      intro iss hiss
      cases hiss

theorem supplier_validKeys (df : DataFrame) (mi : List String × List Issue)
    (h : (check_supplier_variations df).outcome = some mi) :
    ∀ iss ∈ mi.2, validKeys df iss := by
  unfold check_supplier_variations at h
  dsimp only at h
  split at h
  · cases h
    intro iss hiss
    cases hiss
  · split at h
    · cases h
      intro iss hiss
      rcases List.mem_singleton.mp hiss with rfl
      exact validKeys_of_map_filter_range rfl
    · cases h
      intro iss hiss
      cases hiss

theorem category_validKeys (df : DataFrame) (mi : List String × List Issue)
    (h : (check_category_drifts df).outcome = some mi) :
    ∀ iss ∈ mi.2, validKeys df iss := by
  unfold check_category_drifts at h
  dsimp only at h
  split at h
  · cases h
    intro iss hiss
    cases hiss
  · cases h
    intro iss hiss
    rw [List.mem_map] at hiss
    obtain ⟨pr, hpr, rfl⟩ := hiss
    rw [List.mem_map] at hpr
    obtain ⟨p, _, rfl⟩ := hpr
    intro kv hkv
    unfold categoryDriftIssue at hkv
    dsimp only at hkv
    rw [List.mem_flatMap] at hkv
    obtain ⟨d, _, hkv⟩ := hkv
    rw [List.mem_map] at hkv
    obtain ⟨rowIdx, hrow, rfl⟩ := hkv
    rw [List.mem_filter] at hrow
    have hgrp := hrow.1
    unfold productGroup at hgrp
    rw [List.mem_filter, List.mem_range] at hgrp
    exact ⟨rowIdx, hgrp.1, rfl⟩

theorem setCol_nRows (df : DataFrame) (c : String) (vals : List Cell) :
    (df.setCol c vals).nRows = df.nRows := by
  unfold DataFrame.setCol DataFrame.nRows
  split <;> simp

theorem getD_mem {α : Type} {l : List α} {i : Nat} (d : α) (h : i < l.length) :
    l.getD i d ∈ l := by
  rw [List.getD_eq_getElem?_getD, List.getElem?_eq_getElem h]
  exact List.getElem_mem h

theorem mem_groupPairs {dfc : DataFrame} {sorted : List Nat} {pr : Nat × Nat}
    (h : pr ∈ groupPairs dfc sorted) : pr.1 ∈ sorted ∧ pr.2 ∈ sorted := by
  unfold groupPairs at h
  rw [List.mem_map] at h
  obtain ⟨pos, hpos, rfl⟩ := h
  rw [List.mem_filter, List.mem_range] at hpos
  have h1 : 1 ≤ pos := by
    have := hpos.2
    rw [Bool.and_eq_true, decide_eq_true_eq] at this
    exact this.1
  exact ⟨getD_mem 0 (by omega), getD_mem 0 hpos.1⟩

theorem nearDupPairs_lt {dfc : DataFrame} {cols : List String} {pr : Nat × Nat}
    (h : pr ∈ nearDupPairs dfc cols) : pr.1 < dfc.nRows ∧ pr.2 < dfc.nRows := by
  unfold nearDupPairs at h
  rw [List.mem_flatMap] at h
  obtain ⟨g, hgf, hpr⟩ := h
  rw [List.mem_filter] at hgf
  have hg := hgf.1
  unfold nearDupGroups at hg
  rw [List.mem_map] at hg
  obtain ⟨key, _, rfl⟩ := hg
  have hmem := mem_groupPairs hpr
  have hlt : ∀ x ∈ List.insertionSort (fun i j => dateLE dfc i j = true)
      ((List.range dfc.nRows).filter
        (fun i => decide (nearDupKey dfc cols i = key))), x < dfc.nRows := by
    intro x hx
    rw [(List.perm_insertionSort _ _).mem_iff, List.mem_filter, List.mem_range] at hx
    exact hx.1
  exact ⟨hlt pr.1 hmem.1, hlt pr.2 hmem.2⟩

theorem mem_insertLigne_elim {acc : List (String × Ligne)} {k : String}
    {v : Ligne} {kv : String × Ligne} (h : kv ∈ insertLigne acc k v) :
    kv ∈ acc ∨ kv = (k, v) := by
  unfold insertLigne at h
  split at h
  · exact Or.inl h
  · rcases List.mem_append.mp h with h | h
    · exact Or.inl h
    · exact Or.inr (List.mem_singleton.mp h)

theorem foldl_insert_valid (df : DataFrame) (prs : List (Nat × Nat))
    (hprs : ∀ pr ∈ prs, pr.1 < df.nRows ∧ pr.2 < df.nRows) :
    ∀ (acc : List (String × Ligne)),
      (∀ kv ∈ acc, ∃ i, i < df.nRows ∧ kv.1 = toString i) →
      ∀ kv ∈ prs.foldl (fun a pr =>
          insertLigne (insertLigne a (toString pr.1) (nearDupLigne df pr.1))
            (toString pr.2) (nearDupLigne df pr.2)) acc,
        ∃ i, i < df.nRows ∧ kv.1 = toString i := by
  induction prs with
  | nil => exact fun acc hacc kv hkv => hacc kv hkv
  | cons pr rest ih =>
      intro acc hacc kv hkv
      rw [List.foldl_cons] at hkv
      refine ih (fun q hq => hprs q (List.mem_cons_of_mem _ hq)) _ ?_ kv hkv
      intro kv' hkv'
      rcases mem_insertLigne_elim hkv' with h' | h'
      · rcases mem_insertLigne_elim h' with h'' | h''
        · exact hacc kv' h''
        · rw [h'']
          exact ⟨pr.1, (hprs pr (List.mem_cons_self pr rest)).1, rfl⟩
      · rw [h']
        exact ⟨pr.2, (hprs pr (List.mem_cons_self pr rest)).2, rfl⟩

theorem neardup_validKeys (df : DataFrame) (mi : List String × List Issue)
    (h : (check_near_duplicate_rows df).outcome = some mi) :
    ∀ iss ∈ mi.2, validKeys df iss := by
  unfold check_near_duplicate_rows at h
  dsimp only at h
  split at h
  · cases h
    intro iss hiss
    cases hiss
  · split at h
    · cases h
      intro iss hiss
      cases hiss
    · rename_i parsed heq
      split at h
      · cases h
      · split at h
        · cases h
          intro iss hiss
          cases hiss
        · cases h
          intro iss hiss
          rcases List.mem_singleton.mp hiss with rfl
          intro kv hkv
          dsimp only at hkv
          refine foldl_insert_valid df _ ?_ [] (fun kv' hkv' => absurd hkv' (by simp))
            kv hkv
          intro pr hpr
          have := nearDupPairs_lt hpr
          rwa [setCol_nRows] at this

end DetectCorrect

open DetectCorrect in
/-- C6: every issue emitted by any `detect_correct` check keys its
`lignes` by the string form of a row index of the input frame, and every
`lignes` value is an object with exactly the members `default` and
`correction` (a `correction` of `None`/`Correction.delete` meaning: delete
the row). -/
theorem claim_C6_structured_corrections (df : DataFrame) (c : CheckId)
    (mi : List String × List Issue) (h : (runCheck c df).outcome = some mi) :
    ∀ iss ∈ mi.2, ∀ kv ∈ iss.lignes,
      (∃ i, i < df.nRows ∧ kv.1 = toString i) ∧
      ∃ d corr, kv.2 = Ligne.mk d corr := by
  intro iss hiss kv hkv
  refine ⟨?_, kv.2.default, kv.2.correction, rfl⟩
  cases c with
  | missing => exact missing_validKeys df mi h iss hiss kv hkv
  | dup => exact dup_validKeys df mi h iss hiss kv hkv
  | whitespace => exact whitespace_validKeys df mi h iss hiss kv hkv
  | supplier => exact supplier_validKeys df mi h iss hiss kv hkv
  | category => exact category_validKeys df mi h iss hiss kv hkv
  | neardup => exact neardup_validKeys df mi h iss hiss kv hkv

set_option maxRecDepth 8192 in
/-- C6 witness: the first `lignes` entry of the duplicate-rows issue of the
two-duplicate frame is keyed by row index 0 and has exactly the
`default`/`correction` shape. -/
theorem claim_C6_witness :
    (∃ i, i < dfTwoDups.nRows ∧ ("0" : String) = toString i) ∧
    (∃ d corr,
      ({ default := Payload.row (dfTwoDups.rowDict 0),
         correction := Correction.delete } : Ligne) = Ligne.mk d corr) :=
  claim_C6_structured_corrections dfTwoDups DetectCorrect.CheckId.dup
    (DetectCorrect.checkMsgs DetectCorrect.CheckId.dup dfTwoDups,
     DetectCorrect.checkIssues DetectCorrect.CheckId.dup dfTwoDups)
    (by decide)
    ((DetectCorrect.checkIssues DetectCorrect.CheckId.dup dfTwoDups).headD
      { type_erreur := "", texte_erreur := "", lignes := [] })
    (by decide)
    ("0",
     { default := Payload.row (dfTwoDups.rowDict 0),
       correction := Correction.delete })
    (by decide)

end GetCleanData
